import Mathlib

/-!
Verification development for the tmdb-mcp-server repository.

The repository is a TypeScript MCP (tool-call protocol) server exposing the
TMDB HTTP API.  The core under verification is the request-dispatch and
schema-validation layer: `src/index.ts` (the `CallToolRequestSchema` handler,
a switch over tool names wrapped in one try/catch), `src/utils/tmdb-client.ts`
(the `TMDBClient` request builder and error mapping), and the per-tool Zod
schemas and response projections in `src/tools/movies.ts`, `src/tools/tv.ts`
and `src/tools/people.ts`.

Embedding conventions:
* JavaScript runtime values are modelled by the inductive `Json` below, with
  an explicit `undefined` constructor for `undefined`.  JS numbers are modelled
  as rationals (`Rat`); every numeric value the program manipulates is exact
  at this scale, so no floating-point behaviour is claim-relevant.
* Computations that can throw are modelled in `Except String`: every `throw`
  site in the embedded source constructs an `Error` instance (a `new Error`,
  a Zod `ZodError`, or a runtime `TypeError`), and for an `Error` the only
  datum the dispatcher consumes is `error.message`, the carried `String`.
  The dispatcher's `instanceof Error` test and its re-throw branch for
  non-`Error` thrown values are modelled faithfully by the `Thrown` type.
* `fetch` plus `response.json()` are modelled by an oracle
  `Fetch : Request → NetResult`: either a parsed HTTP response with its `ok`
  flag and JSON body, or a rejection carrying an `Error` message (the WHATWG
  fetch API rejects with a `TypeError`, and body parsing fails with a
  `SyntaxError`, both `Error` instances).
* `JSON.stringify(v, null, 2)` is modelled by `Json.stringify`.  Key order,
  dropping of `undefined`-valued object entries, and element rendering follow
  the source; the two-space pretty-printer's whitespace is not reproduced
  (no claim depends on whitespace).
-/

/-- A JavaScript runtime value as manipulated by the server: JSON values plus
`undefined`.  Numbers are modelled as rationals. -/
inductive Json : Type where
  | null : Json
  | undefined : Json
  | bool : Bool → Json
  | num : Rat → Json
  | str : String → Json
  | arr : List Json → Json
  | obj : List (String × Json) → Json

/-- Left-pad a numeral string with zeros to width `k` (used to render the
fractional digits of a decimal). -/
def fracPad (k : Nat) (n : Nat) : String :=
  let s := toString n
  String.mk (List.replicate (k - s.length) '0') ++ s

/-- Rendering of a JS number as a string (`String(n)` / template literals /
`JSON.stringify`): integers render with no point, terminating decimals render
with a point and no trailing zeros.  Every number the program stringifies is
an integer or a short terminating decimal, so this matches the JS
double-to-string conversion on all reachable values. -/
def decimalString (q : Rat) : String :=
  if q.den = 1 then toString q.num
  else
    match (List.range 19).find? (fun k => q.den ∣ 10 ^ k) with
    | some k =>
        let scale := 10 ^ k / q.den
        let n := q.num.natAbs * scale
        let ip := n / 10 ^ k
        let fp := n % 10 ^ k
        (if q.num < 0 then "-" else "") ++ toString ip ++ "." ++ fracPad k fp
    | none => toString q.num ++ "/" ++ toString q.den

/-- JS truthiness: `undefined`, `null`, `false`, `0` and the empty string are
falsy; everything else (including every object and array) is truthy. -/
def Json.truthy : Json → Bool
  | .null => false
  | .undefined => false
  | .bool b => b
  | .num q => q ≠ 0
  | .str s => s ≠ ""
  | .arr _ => true
  | .obj _ => true

mutual

/-- Template-literal stringification of a JS value (the semantics of
embedding a value in a backtick string or of `String(v)`). -/
def Json.template : Json → String
  | .null => "null"
  | .undefined => "undefined"
  | .bool true => "true"
  | .bool false => "false"
  | .num q => decimalString q
  | .str s => s
  | .arr xs => Json.templateElems xs
  | .obj _ => "[object Object]"

/-- `Array.prototype.toString`: elements joined with commas, where `null`
and `undefined` elements render as the empty string. -/
def Json.templateElems : List Json → String
  | [] => ""
  | [x] =>
      (match x with
       | .null => ""
       | .undefined => ""
       | y => Json.template y)
  | x :: xs =>
      (match x with
       | .null => ""
       | .undefined => ""
       | y => Json.template y) ++ "," ++ Json.templateElems xs

end

/-- Escape a string for JSON output. -/
def jsonEscape (s : String) : String :=
  String.join (s.toList.map (fun c =>
    if c = '"' then "\\\""
    else if c = '\\' then "\\\\"
    else if c = '\n' then "\\n"
    else String.singleton c))

/-- A JSON string literal. -/
def jsonQuote (s : String) : String := "\"" ++ jsonEscape s ++ "\""

mutual

/-- `JSON.stringify`: object entries whose value is `undefined` are dropped;
`undefined` array elements render as `null` (as a standalone value,
`undefined` never occurs at the top level in this program). -/
def Json.stringify : Json → String
  | .null => "null"
  | .undefined => "null"
  | .bool true => "true"
  | .bool false => "false"
  | .num q => decimalString q
  | .str s => jsonQuote s
  | .arr xs => "[" ++ Json.stringifyElems xs ++ "]"
  | .obj fs => "\x7b" ++ Json.stringifyFields fs ++ "\x7d"

/-- Array elements of `JSON.stringify`, comma-separated. -/
def Json.stringifyElems : List Json → String
  | [] => ""
  | [x] => Json.stringify x
  | x :: xs => Json.stringify x ++ "," ++ Json.stringifyElems xs

/-- Object entries of `JSON.stringify`: entries with `undefined` values are
dropped, the rest render as quoted key, colon, rendered value. -/
def Json.stringifyFields : List (String × Json) → String
  | [] => ""
  | (k, v) :: fs =>
      match v with
      | .undefined => Json.stringifyFields fs
      | w =>
          jsonQuote k ++ ":" ++ Json.stringify w ++
            (match fs with
             | [] => ""
             | _ => ",")
          ++ Json.stringifyFields fs

end

/-- JS property read `v[k]`: throws a `TypeError` on a `null` or `undefined`
receiver, looks the key up on objects (missing key gives `undefined`), and
gives `undefined` on every other receiver (primitives and arrays have no own
string-keyed data properties relevant to this program). -/
def Json.getField (v : Json) (k : String) : Except String Json :=
  match v with
  | .null => .error ("Cannot read properties of null (reading '" ++ k ++ "')")
  | .undefined => .error ("Cannot read properties of undefined (reading '" ++ k ++ "')")
  | .obj fs => .ok (((fs.find? (fun p => p.1 == k)).map Prod.snd).getD .undefined)
  | _ => .ok .undefined

/-- Pure field lookup on an object value (used in theorem statements to speak
about a field of a projected document). -/
def Json.field (v : Json) (k : String) : Json :=
  match v with
  | .obj fs => ((fs.find? (fun p => p.1 == k)).map Prod.snd).getD .undefined
  | _ => .undefined

/-- `Array.prototype.map` over an element projection that may itself throw:
elements are projected left to right, the first thrown error propagates. -/
def mapME (f : Json → Except String Json) : List Json → Except String (List Json)
  | [] => .ok []
  | x :: xs => do
      let y ← f x
      let ys ← mapME f xs
      pure (y :: ys)

/-- `v.map(f)` over a JS value: a `TypeError` unless the receiver is an
array (on `null`/`undefined` receivers the property read itself throws). -/
def Json.mapArr (f : Json → Except String Json) (v : Json) : Except String Json :=
  match v with
  | .arr xs => (mapME f xs).map Json.arr
  | .null => .error "Cannot read properties of null (reading 'map')"
  | .undefined => .error "Cannot read properties of undefined (reading 'map')"
  | _ => .error "map is not a function"

/-- Read a JS value as an array for `slice`/`filter` chains; a `TypeError`
otherwise. -/
def Json.asArr (v : Json) (opName : String) : Except String (List Json) :=
  match v with
  | .arr xs => .ok xs
  | .null => .error ("Cannot read properties of null (reading '" ++ opName ++ "')")
  | .undefined => .error ("Cannot read properties of undefined (reading '" ++ opName ++ "')")
  | _ => .error (opName ++ " is not a function")

/-- Monadic filter used to model `Array.prototype.filter` whose callback may
itself throw (property reads on malformed elements). -/
def filterME (p : Json → Except String Bool) : List Json → Except String (List Json)
  | [] => .ok []
  | x :: xs => do
      let b ← p x
      let rest ← filterME p xs
      pure (if b then x :: rest else rest)

/-! ## Schema validation (the Zod schemas)

Each tool's Zod schema is embedded as a function from the caller's argument
bag (a `Json` value) to either a typed validated-argument structure or a
thrown `ZodError`.  Zod's `.parse` collects all field issues and fails if any
field check fails; the embedded checkers return `Option` per field and the
object parser succeeds exactly when every field check succeeds.  The text of
the aggregated `ZodError` message is not modelled (no claim constrains it);
every validation failure is represented by the fixed message below. -/

/-- Look a field up in a parsed argument object; a missing key reads as
`undefined` (which is what Zod's per-field checks receive). -/
def bagField (fs : List (String × Json)) (k : String) : Json :=
  ((fs.find? (fun p => p.1 == k)).map Prod.snd).getD .undefined

/-- `z.string().min(1)`: a string of length at least 1. -/
def zodString1 : Json → Option String
  | .str s => if 1 ≤ s.length then some s else none
  | _ => none

/-- `z.string().optional()`: absent gives `none`; any string is accepted;
`null` and non-strings fail. -/
def zodOptString : Json → Option (Option String)
  | .undefined => some none
  | .str s => some (some s)
  | _ => none

/-- `z.number().int().positive()`: an integral number strictly above 0. -/
def zodPosInt : Json → Option Rat
  | .num q => if q.den = 1 ∧ 0 < q then some q else none
  | _ => none

/-- `z.number().int().positive().optional().default(1)`: absent gives the
declared default 1; an explicitly supplied value must pass the checks
(`null` is not defaulted, it fails). -/
def zodPosIntD1 : Json → Option Rat
  | .undefined => some 1
  | j => zodPosInt j

/-- `z.number().int().optional()`: absent gives `none`; a supplied value
must be an integral number. -/
def zodOptInt : Json → Option (Option Rat)
  | .undefined => some none
  | .num q => if q.den = 1 then some (some q) else none
  | _ => none

/-- `z.number().min(0).max(10).optional()`: absent gives `none`; a supplied
value must be a number in the inclusive range [0, 10]. -/
def zodOptRating : Json → Option (Option Rat)
  | .undefined => some none
  | .num q => if 0 ≤ q ∧ q ≤ 10 then some (some q) else none
  | _ => none

/-- `z.enum(opts).optional().default(dflt)` (and `z.enum(opts).default(dflt)`,
which Zod treats identically on `undefined`): absent gives the default, a
supplied string must exactly match one of the declared options
(case-sensitive), anything else fails. -/
def zodEnumD (opts : List String) (dflt : String) : Json → Option String
  | .undefined => some dflt
  | .str s => if opts.contains s then some s else none
  | _ => none

/-- Stand-in message for a thrown `ZodError` (its text is not modelled). -/
def zodFailMsg : String := "Invalid arguments"

/-- Validated arguments of `search_movies`, `search_tv_shows` and
`search_people` (the three schemas declare the identical shape
`query: z.string().min(1)`, `page: z.number().int().positive().optional().default(1)`). -/
structure SearchArgs where
  query : String
  page : Rat

/-- Parse an argument bag against the shared search-tool schema. -/
def parseSearchArgs (args : Json) : Except String SearchArgs :=
  match args with
  | .obj fs =>
      match zodString1 (bagField fs "query"), zodPosIntD1 (bagField fs "page") with
      | some q, some p => .ok ⟨q, p⟩
      | _, _ => .error zodFailMsg
  | _ => .error zodFailMsg

/-- Parse a single required positive-integer id field (`movie_id`, `tv_id`
or `person_id`, per the respective schema). -/
def parseIdArg (key : String) (args : Json) : Except String Rat :=
  match args with
  | .obj fs =>
      match zodPosInt (bagField fs key) with
      | some i => .ok i
      | none => .error zodFailMsg
  | _ => .error zodFailMsg

/-- Validated arguments of the recommendation tools: a required id plus an
optional defaulted page. -/
structure IdPageArgs where
  theId : Rat
  page : Rat

/-- Parse an id-plus-page argument bag (`GetRecommendationsSchema` with
`movie_id`, `GetTVRecommendationsSchema` with `tv_id`). -/
def parseIdPageArgs (key : String) (args : Json) : Except String IdPageArgs :=
  match args with
  | .obj fs =>
      match zodPosInt (bagField fs key), zodPosIntD1 (bagField fs "page") with
      | some i, some p => .ok ⟨i, p⟩
      | _, _ => .error zodFailMsg
  | _ => .error zodFailMsg

/-- The `sort_by` enumeration of `DiscoverMoviesSchema`. -/
def movieSortOptions : List String :=
  ["popularity.desc", "popularity.asc", "vote_average.desc", "vote_average.asc",
   "release_date.desc", "release_date.asc"]

/-- The `sort_by` enumeration of `DiscoverTVShowsSchema`. -/
def tvSortOptions : List String :=
  ["popularity.desc", "popularity.asc", "vote_average.desc", "vote_average.asc",
   "first_air_date.desc", "first_air_date.asc"]

/-- Validated arguments of `discover_movies` (`DiscoverMoviesSchema`). -/
structure DiscoverMoviesArgs where
  with_genres : Option String
  year : Option Rat
  min_rating : Option Rat
  max_rating : Option Rat
  sort_by : String
  page : Rat

/-- Parse an argument bag against `DiscoverMoviesSchema`. -/
def parseDiscoverMoviesArgs (args : Json) : Except String DiscoverMoviesArgs :=
  match args with
  | .obj fs =>
      match zodOptString (bagField fs "with_genres"), zodOptInt (bagField fs "year"),
            zodOptRating (bagField fs "min_rating"), zodOptRating (bagField fs "max_rating"),
            zodEnumD movieSortOptions "popularity.desc" (bagField fs "sort_by"),
            zodPosIntD1 (bagField fs "page") with
      | some g, some y, some mn, some mx, some sb, some p => .ok ⟨g, y, mn, mx, sb, p⟩
      | _, _, _, _, _, _ => .error zodFailMsg
  | _ => .error zodFailMsg

/-- Validated arguments of `discover_tv_shows` (`DiscoverTVShowsSchema`). -/
structure DiscoverTVArgs where
  with_genres : Option String
  with_original_language : Option String
  year : Option Rat
  min_rating : Option Rat
  max_rating : Option Rat
  sort_by : String
  page : Rat

/-- Parse an argument bag against `DiscoverTVShowsSchema`. -/
def parseDiscoverTVArgs (args : Json) : Except String DiscoverTVArgs :=
  match args with
  | .obj fs =>
      match zodOptString (bagField fs "with_genres"),
            zodOptString (bagField fs "with_original_language"),
            zodOptInt (bagField fs "year"),
            zodOptRating (bagField fs "min_rating"), zodOptRating (bagField fs "max_rating"),
            zodEnumD tvSortOptions "popularity.desc" (bagField fs "sort_by"),
            zodPosIntD1 (bagField fs "page") with
      | some g, some l, some y, some mn, some mx, some sb, some p =>
          .ok ⟨g, l, y, mn, mx, sb, p⟩
      | _, _, _, _, _, _, _ => .error zodFailMsg
  | _ => .error zodFailMsg

/-- Validated arguments of `get_trending` (`GetTrendingSchema`). -/
structure TrendingArgs where
  media_type : String
  time_window : String
  page : Rat

/-- Parse an argument bag against `GetTrendingSchema`. -/
def parseTrendingArgs (args : Json) : Except String TrendingArgs :=
  match args with
  | .obj fs =>
      match zodEnumD ["all", "movie", "tv", "person"] "all" (bagField fs "media_type"),
            zodEnumD ["day", "week"] "week" (bagField fs "time_window"),
            zodPosIntD1 (bagField fs "page") with
      | some mt, some tw, some p => .ok ⟨mt, tw, p⟩
      | _, _, _ => .error zodFailMsg
  | _ => .error zodFailMsg

/-! ## Upstream client (`TMDBClient`)

`TMDBClient.get` builds one GET request from an endpoint and a string-valued
query map, sends it with a bearer header, and on a non-ok HTTP status parses
the TMDB error envelope and throws
`new Error("TMDB API Error: " + error.status_message)`.  The network is the
oracle `Fetch`; the fixed base URL and bearer header carry no information a
claim depends on and are kept as the constants below. -/

/-- The upstream request actually issued by one client call: endpoint path
(with path parameters already substituted) and the query parameters in
insertion order. -/
structure Request where
  endpoint : String
  params : List (String × String)
deriving DecidableEq

/-- Outcome of `fetch` + body parsing: an HTTP response with its `ok` flag
and parsed JSON body, or a rejection carrying an `Error` message. -/
inductive NetResult : Type where
  | resp : Bool → Json → NetResult
  | netFail : String → NetResult

/-- The network oracle standing for `fetch`. -/
def Fetch : Type := Request → NetResult

/-- The client's fixed base URL (`baseURL` in `TMDBClient`). -/
def tmdbBaseURL : String := "https://api.themoviedb.org/3"

/-- The fixed image-host prefix used by every image-URL projection. -/
def imageHost : String := "https://image.tmdb.org/t/p/"

/-- `TMDBClient.get`: issue the request; on `ok` return the parsed body, on a
non-ok status read `status_message` from the parsed error envelope and throw
`TMDB API Error: <status_message>`, and on a fetch rejection propagate that
`Error`.  (Reading `status_message` off a `null` body itself throws a
`TypeError`, which propagates like any other `Error`.) -/
def tmdbGet (fetch : Fetch) (req : Request) : Except String Json :=
  match fetch req with
  | .resp true body => .ok body
  | .resp false body =>
      match body.getField "status_message" with
      | .ok v => .error ("TMDB API Error: " ++ v.template)
      | .error m => .error m
  | .netFail m => .error m

/-- The parameter object accepted by `TMDBClient.discoverMovies` (field
`primary_release_year` keeps its upstream spelling; the two dotted fields
`vote_average.gte` / `vote_average.lte` are named `voteGte` / `voteLte`
because Lean field names cannot contain dots). -/
structure DiscoverMoviesClientParams where
  with_genres : Option String
  primary_release_year : Option Rat
  voteGte : Option Rat
  voteLte : Option Rat
  sort_by : Option String
  page : Option Rat

/-- Truthiness of an optional JS string (`if (params.x)` on a
`string | undefined` value): present and non-empty. -/
def optStrTruthy : Option String → Bool
  | some s => s ≠ ""
  | none => false

/-- Truthiness of an optional JS number (`if (params.x)` on a
`number | undefined` value): present and non-zero. -/
def optNumTruthy : Option Rat → Bool
  | some q => q ≠ 0
  | none => false

/-- One line of the client's query construction for a string parameter:
`if (params.x) queryParams[k] = params.x` — the JS truthiness guard admits
exactly a present, non-empty string. -/
def strSeg (k : String) (o : Option String) : List (String × String) :=
  match o with
  | some s => if s ≠ "" then [(k, s)] else []
  | none => []

/-- One line of the client's query construction for a numeric parameter:
`if (params.x) queryParams[k] = String(params.x)` — the JS truthiness guard
admits exactly a present, non-zero number, which is then stringified. -/
def numSeg (k : String) (o : Option Rat) : List (String × String) :=
  match o with
  | some q => if q ≠ 0 then [(k, decimalString q)] else []
  | none => []

/-- The query map built by `TMDBClient.discoverMovies`: each parameter is
added under its upstream key, stringified, guarded by a JS truthiness test
(`if (params.x)`), in the source's insertion order. -/
def discoverMoviesQuery (p : DiscoverMoviesClientParams) : List (String × String) :=
  strSeg "with_genres" p.with_genres ++
  numSeg "primary_release_year" p.primary_release_year ++
  numSeg "vote_average.gte" p.voteGte ++
  numSeg "vote_average.lte" p.voteLte ++
  strSeg "sort_by" p.sort_by ++
  numSeg "page" p.page

/-- The parameter object accepted by `TMDBClient.discoverTVShows`.
Modelled from the spec: `TMDBClient.discoverTVShows` itself is not among the
source files (only its caller `handleDiscoverTVShows` is); per the spec the
query is built from the declared field-to-upstream-key mapping with numeric
values stringified and absent optional fields dropped. -/
structure DiscoverTVClientParams where
  with_genres : Option String
  with_original_language : Option String
  first_air_date_year : Option Rat
  voteGte : Option Rat
  voteLte : Option Rat
  sort_by : Option String
  page : Option Rat

/-- Modelled from the spec: the query map of the missing
`TMDBClient.discoverTVShows`, built from the declared mapping with absent
optional parameters omitted. -/
def discoverTVQuery (p : DiscoverTVClientParams) : List (String × String) :=
  (match p.with_genres with
   | some s => [("with_genres", s)]
   | none => []) ++
  (match p.with_original_language with
   | some s => [("with_original_language", s)]
   | none => []) ++
  (match p.first_air_date_year with
   | some y => [("first_air_date_year", decimalString y)]
   | none => []) ++
  (match p.voteGte with
   | some r => [("vote_average.gte", decimalString r)]
   | none => []) ++
  (match p.voteLte with
   | some r => [("vote_average.lte", decimalString r)]
   | none => []) ++
  (match p.sort_by with
   | some s => [("sort_by", s)]
   | none => []) ++
  (match p.page with
   | some n => [("page", decimalString n)]
   | none => [])

/-! ## Response projections and per-tool handlers

Each handler receives its validated arguments and the network oracle, issues
exactly one client call, projects the upstream document, and serializes the
projection with `JSON.stringify`.  A handler evaluates to the pair of its
result (`Except String String`, errors being thrown `Error` messages) and
the list of upstream requests it issued.  In the source each handler begins
by re-parsing its (already validated) arguments with the same Zod schema;
on a value produced by that very schema the re-parse is the identity and is
not repeated here. -/

/-- The conditional image-URL projection appearing inline in every handler:
`path ? "https://image.tmdb.org/t/p/<size>" + path : null` (a JS truthiness
test, so `null`, `undefined` and the empty string all project to `null`). -/
def imageUrl (size : String) (p : Json) : Json :=
  if p.truthy then .str (imageHost ++ size ++ p.template) else .null

/-- The per-movie projection of `handleSearchMovies`. -/
def fmtSearchMovie (movie : Json) : Except String Json := do
  let idv ← movie.getField "id"
  let title ← movie.getField "title"
  let otitle ← movie.getField "original_title"
  let rdate ← movie.getField "release_date"
  let ov ← movie.getField "overview"
  let va ← movie.getField "vote_average"
  let vc ← movie.getField "vote_count"
  let pop ← movie.getField "popularity"
  let pp ← movie.getField "poster_path"
  let bp ← movie.getField "backdrop_path"
  pure (.obj [("id", idv), ("title", title), ("original_title", otitle),
    ("release_date", rdate), ("overview", ov), ("vote_average", va),
    ("vote_count", vc), ("popularity", pop),
    ("poster_path", imageUrl "w500" pp), ("backdrop_path", imageUrl "original" bp)])

/-- The paginated-envelope projection shared by the search handlers:
`{page, total_results, total_pages, results: results.map(fmt)}`. -/
def pagedEnvelope (fmt : Json → Except String Json) (doc : Json) :
    Except String String := do
  let results ← doc.getField "results"
  let fr ← Json.mapArr fmt results
  let page ← doc.getField "page"
  let tr ← doc.getField "total_results"
  let tp ← doc.getField "total_pages"
  pure (Json.stringify (.obj [("page", page), ("total_results", tr),
    ("total_pages", tp), ("results", fr)]))

/-- `handleSearchMovies`: one `/search/movie` request with `query` and
stringified `page`, then the search projection. -/
def handleSearchMovies (v : SearchArgs) (fetch : Fetch) :
    Except String String × List Request :=
  let req : Request := ⟨"/search/movie", [("query", v.query), ("page", decimalString v.page)]⟩
  ((do
    let doc ← tmdbGet fetch req
    pagedEnvelope fmtSearchMovie doc), [req])

/-- The projection of `handleGetMovieDetails` (field selection in source
order plus the two image URLs), as the document that is then serialized. -/
def fmtMovieDetailsDoc (movie : Json) : Except String Json := do
  let idv ← movie.getField "id"
  let title ← movie.getField "title"
  let otitle ← movie.getField "original_title"
  let tagline ← movie.getField "tagline"
  let ov ← movie.getField "overview"
  let rdate ← movie.getField "release_date"
  let runtime ← movie.getField "runtime"
  let status ← movie.getField "status"
  let budget ← movie.getField "budget"
  let revenue ← movie.getField "revenue"
  let va ← movie.getField "vote_average"
  let vc ← movie.getField "vote_count"
  let pop ← movie.getField "popularity"
  let genres ← movie.getField "genres"
  let pc ← movie.getField "production_companies"
  let pcount ← movie.getField "production_countries"
  let sl ← movie.getField "spoken_languages"
  let pp ← movie.getField "poster_path"
  let bp ← movie.getField "backdrop_path"
  pure (.obj [("id", idv), ("title", title),
    ("original_title", otitle), ("tagline", tagline), ("overview", ov),
    ("release_date", rdate), ("runtime", runtime), ("status", status),
    ("budget", budget), ("revenue", revenue), ("vote_average", va),
    ("vote_count", vc), ("popularity", pop), ("genres", genres),
    ("production_companies", pc), ("production_countries", pcount),
    ("spoken_languages", sl),
    ("poster_path", imageUrl "w500" pp), ("backdrop_path", imageUrl "original" bp)])

/-- `handleGetMovieDetails`: one `/movie/{id}` request, then the details
projection. -/
def handleGetMovieDetails (movieId : Rat) (fetch : Fetch) :
    Except String String × List Request :=
  let req : Request := ⟨"/movie/" ++ decimalString movieId, []⟩
  ((do
    let doc ← tmdbGet fetch req
    let d ← fmtMovieDetailsDoc doc
    pure (Json.stringify d)), [req])

/-- The compact per-movie projection shared by `handleDiscoverMovies` and
`handleGetRecommendations` (identical field lists in the source). -/
def fmtMovieCompact (movie : Json) : Except String Json := do
  let idv ← movie.getField "id"
  let title ← movie.getField "title"
  let rdate ← movie.getField "release_date"
  let ov ← movie.getField "overview"
  let va ← movie.getField "vote_average"
  let vc ← movie.getField "vote_count"
  let pop ← movie.getField "popularity"
  let pp ← movie.getField "poster_path"
  pure (.obj [("id", idv), ("title", title), ("release_date", rdate),
    ("overview", ov), ("vote_average", va), ("vote_count", vc),
    ("popularity", pop), ("poster_path", imageUrl "w500" pp)])

/-- Lift an optional validated string into the JS value stored in the
`filters_applied` echo (`undefined` when the caller omitted the field). -/
def optStrJson : Option String → Json
  | some s => .str s
  | none => .undefined

/-- Lift an optional validated number into the JS value stored in the
`filters_applied` echo. -/
def optNumJson : Option Rat → Json
  | some q => .num q
  | none => .undefined

/-- The field mapping `handleDiscoverMovies` applies when calling
`TMDBClient.discoverMovies`: `with_genres` passes through, `year` maps to
`primary_release_year`, `min_rating`/`max_rating` map to the dotted
`vote_average` bound keys, and the defaulted `sort_by`/`page` are always
supplied. -/
def discoverClientParamsOf (v : DiscoverMoviesArgs) : DiscoverMoviesClientParams :=
  ⟨v.with_genres, v.year, v.min_rating, v.max_rating, some v.sort_by, some v.page⟩

/-- `handleDiscoverMovies`: map validated fields onto the client parameter
object via `discoverClientParamsOf`, issue one `/discover/movie` request,
then project results and echo `filters_applied`. -/
def handleDiscoverMovies (v : DiscoverMoviesArgs) (fetch : Fetch) :
    Except String String × List Request :=
  let req : Request := ⟨"/discover/movie", discoverMoviesQuery (discoverClientParamsOf v)⟩
  ((do
    let doc ← tmdbGet fetch req
    let results ← doc.getField "results"
    let fr ← Json.mapArr fmtMovieCompact results
    let page ← doc.getField "page"
    let tr ← doc.getField "total_results"
    let tp ← doc.getField "total_pages"
    pure (Json.stringify (.obj [("page", page), ("total_results", tr),
      ("total_pages", tp),
      ("filters_applied", .obj [("genres", optStrJson v.with_genres),
        ("year", optNumJson v.year), ("min_rating", optNumJson v.min_rating),
        ("max_rating", optNumJson v.max_rating), ("sort_by", .str v.sort_by)]),
      ("results", fr)]))), [req])

/-- `handleGetRecommendations`: one `/movie/{id}/recommendations` request,
then the compact projection under a `recommendations` key together with the
echoed `based_on_movie_id`. -/
def handleGetRecommendations (v : IdPageArgs) (fetch : Fetch) :
    Except String String × List Request :=
  let req : Request := ⟨"/movie/" ++ decimalString v.theId ++ "/recommendations",
    [("page", decimalString v.page)]⟩
  ((do
    let doc ← tmdbGet fetch req
    let results ← doc.getField "results"
    let fr ← Json.mapArr fmtMovieCompact results
    let page ← doc.getField "page"
    let tr ← doc.getField "total_results"
    let tp ← doc.getField "total_pages"
    pure (Json.stringify (.obj [("based_on_movie_id", .num v.theId),
      ("page", page), ("total_results", tr), ("total_pages", tp),
      ("recommendations", fr)]))), [req])

/-- JS strict equality `v === "s"` of a dynamic value against a string
literal: true exactly for the equal string. -/
def Json.strictEqStr (v : Json) (s : String) : Bool :=
  match v with
  | .str t => t == s
  | _ => false

/-- The per-item projection of `handleGetTrending`: a common base of
`id`, `media_type`, `popularity`, `vote_average`, then a branch on the
`media_type` discriminator — `"movie"` adds `title`/`release_date`/
`overview`, `"tv"` adds `name`/`first_air_date`/`overview`, and everything
else (the person branch, which also receives any unrecognized discriminator)
adds `name`/`known_for_department`. -/
def fmtTrendingItem (item : Json) : Except String Json := do
  let idv ← item.getField "id"
  let mt ← item.getField "media_type"
  let pop ← item.getField "popularity"
  let va ← item.getField "vote_average"
  if mt.strictEqStr "movie" then
    let title ← item.getField "title"
    let rdate ← item.getField "release_date"
    let ov ← item.getField "overview"
    pure (.obj [("id", idv), ("media_type", mt), ("popularity", pop),
      ("vote_average", va), ("title", title), ("release_date", rdate),
      ("overview", ov)])
  else if mt.strictEqStr "tv" then
    let name ← item.getField "name"
    let fad ← item.getField "first_air_date"
    let ov ← item.getField "overview"
    pure (.obj [("id", idv), ("media_type", mt), ("popularity", pop),
      ("vote_average", va), ("name", name), ("first_air_date", fad),
      ("overview", ov)])
  else
    let name ← item.getField "name"
    let kfd ← item.getField "known_for_department"
    pure (.obj [("id", idv), ("media_type", mt), ("popularity", pop),
      ("vote_average", va), ("name", name), ("known_for_department", kfd)])

/-- `handleGetTrending`: one `/trending/{media_type}/{time_window}` request,
then the per-item reshape and an envelope echoing the validated
`media_type` and `time_window` plus the upstream pagination fields. -/
def handleGetTrending (v : TrendingArgs) (fetch : Fetch) :
    Except String String × List Request :=
  let req : Request := ⟨"/trending/" ++ v.media_type ++ "/" ++ v.time_window,
    [("page", decimalString v.page)]⟩
  ((do
    let doc ← tmdbGet fetch req
    let results ← doc.getField "results"
    let fr ← Json.mapArr fmtTrendingItem results
    let page ← doc.getField "page"
    let tr ← doc.getField "total_results"
    let tp ← doc.getField "total_pages"
    pure (Json.stringify (.obj [("media_type", .str v.media_type),
      ("time_window", .str v.time_window), ("page", page),
      ("total_results", tr), ("total_pages", tp), ("results", fr)]))), [req])

/-- The crew-job allow-list of `handleGetMovieCredits`
("key roles: Directors, Producers, Writers"). -/
def keyJobsMovie : List String :=
  ["Director", "Producer", "Writer", "Screenplay", "Story", "Executive Producer"]

/-- The crew-job allow-list of `handleGetTVCredits` (the movie list plus
`"Creator"`). -/
def keyJobsTV : List String :=
  ["Director", "Producer", "Writer", "Screenplay", "Story", "Executive Producer",
   "Creator"]

/-- The filter callback `member => keyJobs.includes(member.job)`: reads the
element's `job` (a property read, which throws on `null`/`undefined`
elements) and tests membership in the allow-list; `includes` on a non-string
value is false. -/
def jobInAllowList (keyJobs : List String) (member : Json) : Except String Bool := do
  let j ← member.getField "job"
  pure (match j with
        | .str s => keyJobs.contains s
        | _ => false)

/-- The per-cast-member projection of `handleGetMovieCredits` (including the
`order` field and the `w185` profile image). -/
def fmtMovieCastMember (member : Json) : Except String Json := do
  let idv ← member.getField "id"
  let name ← member.getField "name"
  let ch ← member.getField "character"
  let ord ← member.getField "order"
  let pp ← member.getField "profile_path"
  pure (.obj [("id", idv), ("name", name), ("character", ch), ("order", ord),
    ("profile_path", imageUrl "w185" pp)])

/-- The per-crew-member projection shared by both credits handlers. -/
def fmtCrewMember (member : Json) : Except String Json := do
  let idv ← member.getField "id"
  let name ← member.getField "name"
  let job ← member.getField "job"
  let dep ← member.getField "department"
  pure (.obj [("id", idv), ("name", name), ("job", job), ("department", dep)])

/-- `handleGetMovieCredits`: one `/movie/{id}/credits` request; the cast is
`credits.cast.slice(0, 20)` mapped through the cast projection, the crew is
`credits.crew` filtered to the allow-list then mapped, and the envelope is
`{movie_id: credits.id, cast, crew}`. -/
def handleGetMovieCredits (movieId : Rat) (fetch : Fetch) :
    Except String String × List Request :=
  let req : Request := ⟨"/movie/" ++ decimalString movieId ++ "/credits", []⟩
  ((do
    let credits ← tmdbGet fetch req
    let castField ← credits.getField "cast"
    let cast ← castField.asArr "slice"
    let fc ← mapME fmtMovieCastMember (cast.take 20)
    let crewField ← credits.getField "crew"
    let crew ← crewField.asArr "filter"
    let kept ← filterME (jobInAllowList keyJobsMovie) crew
    let fw ← mapME fmtCrewMember kept
    let idv ← credits.getField "id"
    pure (Json.stringify (.obj [("movie_id", idv), ("cast", .arr fc),
      ("crew", .arr fw)]))), [req])

/-- The per-cast-member projection of `handleGetTVCredits` (no `order`
field; `w185` profile image). -/
def fmtTVCastMember (member : Json) : Except String Json := do
  let idv ← member.getField "id"
  let name ← member.getField "name"
  let ch ← member.getField "character"
  let pp ← member.getField "profile_path"
  pure (.obj [("id", idv), ("name", name), ("character", ch),
    ("profile_path", imageUrl "w185" pp)])

/-- `handleGetTVCredits`: one `/tv/{id}/credits` request (the client method
is modelled from the spec as the symmetric single-GET operation, since
`TMDBClient.getTVShowCredits` is not among the source files); cast is the
first 20 entries, crew is filtered to the TV allow-list (which adds
`Creator`), and the envelope is `{tv_id: credits.id, cast, crew}`. -/
def handleGetTVCredits (tvId : Rat) (fetch : Fetch) :
    Except String String × List Request :=
  let req : Request := ⟨"/tv/" ++ decimalString tvId ++ "/credits", []⟩
  ((do
    let credits ← tmdbGet fetch req
    let castField ← credits.getField "cast"
    let cast ← castField.asArr "slice"
    let fc ← mapME fmtTVCastMember (cast.take 20)
    let crewField ← credits.getField "crew"
    let crew ← crewField.asArr "filter"
    let kept ← filterME (jobInAllowList keyJobsTV) crew
    let fw ← mapME fmtCrewMember kept
    let idv ← credits.getField "id"
    pure (Json.stringify (.obj [("tv_id", idv), ("cast", .arr fc),
      ("crew", .arr fw)]))), [req])

/-- The per-show projection of `handleSearchTVShows`. -/
def fmtSearchTV (show_ : Json) : Except String Json := do
  let idv ← show_.getField "id"
  let name ← show_.getField "name"
  let oname ← show_.getField "original_name"
  let fad ← show_.getField "first_air_date"
  let ov ← show_.getField "overview"
  let va ← show_.getField "vote_average"
  let vc ← show_.getField "vote_count"
  let pop ← show_.getField "popularity"
  let oc ← show_.getField "origin_country"
  let pp ← show_.getField "poster_path"
  let bp ← show_.getField "backdrop_path"
  pure (.obj [("id", idv), ("name", name), ("original_name", oname),
    ("first_air_date", fad), ("overview", ov), ("vote_average", va),
    ("vote_count", vc), ("popularity", pop), ("origin_country", oc),
    ("poster_path", imageUrl "w500" pp), ("backdrop_path", imageUrl "original" bp)])

/-- `handleSearchTVShows`: one `/search/tv` request, then the TV search
projection. -/
def handleSearchTVShows (v : SearchArgs) (fetch : Fetch) :
    Except String String × List Request :=
  let req : Request := ⟨"/search/tv", [("query", v.query), ("page", decimalString v.page)]⟩
  ((do
    let doc ← tmdbGet fetch req
    pagedEnvelope fmtSearchTV doc), [req])

/-- The projection of `handleGetTVShowDetails` (field selection in source
order plus the two image URLs). -/
def fmtTVDetailsDoc (show_ : Json) : Except String Json := do
  let idv ← show_.getField "id"
  let name ← show_.getField "name"
  let oname ← show_.getField "original_name"
  let tagline ← show_.getField "tagline"
  let ov ← show_.getField "overview"
  let fad ← show_.getField "first_air_date"
  let lad ← show_.getField "last_air_date"
  let status ← show_.getField "status"
  let ty ← show_.getField "type"
  let ns ← show_.getField "number_of_seasons"
  let ne ← show_.getField "number_of_episodes"
  let ert ← show_.getField "episode_run_time"
  let ip ← show_.getField "in_production"
  let va ← show_.getField "vote_average"
  let vc ← show_.getField "vote_count"
  let pop ← show_.getField "popularity"
  let genres ← show_.getField "genres"
  let cb ← show_.getField "created_by"
  let nw ← show_.getField "networks"
  let oc ← show_.getField "origin_country"
  let langs ← show_.getField "languages"
  let hp ← show_.getField "homepage"
  let pp ← show_.getField "poster_path"
  let bp ← show_.getField "backdrop_path"
  pure (.obj [("id", idv), ("name", name),
    ("original_name", oname), ("tagline", tagline), ("overview", ov),
    ("first_air_date", fad), ("last_air_date", lad), ("status", status),
    ("type", ty), ("number_of_seasons", ns), ("number_of_episodes", ne),
    ("episode_run_time", ert), ("in_production", ip), ("vote_average", va),
    ("vote_count", vc), ("popularity", pop), ("genres", genres),
    ("created_by", cb), ("networks", nw), ("origin_country", oc),
    ("languages", langs), ("homepage", hp),
    ("poster_path", imageUrl "w500" pp), ("backdrop_path", imageUrl "original" bp)])

/-- `handleGetTVShowDetails`: one `/tv/{id}` request, then the TV details
projection. -/
def handleGetTVShowDetails (tvId : Rat) (fetch : Fetch) :
    Except String String × List Request :=
  let req : Request := ⟨"/tv/" ++ decimalString tvId, []⟩
  ((do
    let doc ← tmdbGet fetch req
    let d ← fmtTVDetailsDoc doc
    pure (Json.stringify d)), [req])

/-- The compact per-show projection shared by `handleDiscoverTVShows` and
`handleGetTVRecommendations` (identical field lists in the source). -/
def fmtTVCompact (show_ : Json) : Except String Json := do
  let idv ← show_.getField "id"
  let name ← show_.getField "name"
  let fad ← show_.getField "first_air_date"
  let ov ← show_.getField "overview"
  let va ← show_.getField "vote_average"
  let vc ← show_.getField "vote_count"
  let pop ← show_.getField "popularity"
  let pp ← show_.getField "poster_path"
  pure (.obj [("id", idv), ("name", name), ("first_air_date", fad),
    ("overview", ov), ("vote_average", va), ("vote_count", vc),
    ("popularity", pop), ("poster_path", imageUrl "w500" pp)])

/-- `handleDiscoverTVShows`: map validated fields onto the client parameter
object (`year → first_air_date_year`, ratings onto the dotted vote keys),
issue one `/discover/tv` request, then project results and echo
`filters_applied`. -/
def handleDiscoverTVShows (v : DiscoverTVArgs) (fetch : Fetch) :
    Except String String × List Request :=
  let p : DiscoverTVClientParams :=
    ⟨v.with_genres, v.with_original_language, v.year, v.min_rating, v.max_rating,
     some v.sort_by, some v.page⟩
  let req : Request := ⟨"/discover/tv", discoverTVQuery p⟩
  ((do
    let doc ← tmdbGet fetch req
    let results ← doc.getField "results"
    let fr ← Json.mapArr fmtTVCompact results
    let page ← doc.getField "page"
    let tr ← doc.getField "total_results"
    let tp ← doc.getField "total_pages"
    pure (Json.stringify (.obj [("page", page), ("total_results", tr),
      ("total_pages", tp),
      ("filters_applied", .obj [("genres", optStrJson v.with_genres),
        ("original_language", optStrJson v.with_original_language),
        ("year", optNumJson v.year), ("min_rating", optNumJson v.min_rating),
        ("max_rating", optNumJson v.max_rating), ("sort_by", .str v.sort_by)]),
      ("results", fr)]))), [req])

/-- `handleGetTVRecommendations`: one `/tv/{id}/recommendations` request
(client method modelled from the spec as the symmetric single-GET operation,
`TMDBClient.getTVShowRecommendations` being absent from the source files),
then the compact projection under `recommendations` with the echoed
`based_on_tv_id`. -/
def handleGetTVRecommendations (v : IdPageArgs) (fetch : Fetch) :
    Except String String × List Request :=
  let req : Request := ⟨"/tv/" ++ decimalString v.theId ++ "/recommendations",
    [("page", decimalString v.page)]⟩
  ((do
    let doc ← tmdbGet fetch req
    let results ← doc.getField "results"
    let fr ← Json.mapArr fmtTVCompact results
    let page ← doc.getField "page"
    let tr ← doc.getField "total_results"
    let tp ← doc.getField "total_pages"
    pure (Json.stringify (.obj [("based_on_tv_id", .num v.theId),
      ("page", page), ("total_results", tr), ("total_pages", tp),
      ("recommendations", fr)]))), [req])

/-- The per-known-for-credit projection inside `handleSearchPeople`
(`title: item.title || item.name`, a JS truthiness-based disjunction). -/
def fmtKnownForItem (item : Json) : Except String Json := do
  let idv ← item.getField "id"
  let title ← item.getField "title"
  let name ← item.getField "name"
  let mt ← item.getField "media_type"
  let va ← item.getField "vote_average"
  pure (.obj [("id", idv), ("title", if title.truthy then title else name),
    ("media_type", mt), ("vote_average", va)])

/-- The per-person projection of `handleSearchPeople` (`w185` profile image;
`known_for?.map(...)` uses optional chaining, so a nullish `known_for`
projects to `undefined` and is then dropped by `JSON.stringify`). -/
def fmtSearchPerson (person : Json) : Except String Json := do
  let idv ← person.getField "id"
  let name ← person.getField "name"
  let kfd ← person.getField "known_for_department"
  let pop ← person.getField "popularity"
  let pp ← person.getField "profile_path"
  let kf ← person.getField "known_for"
  let kfProj ← (match kf with
    | .null => Except.ok Json.undefined
    | .undefined => Except.ok Json.undefined
    | other => Json.mapArr fmtKnownForItem other)
  pure (.obj [("id", idv), ("name", name), ("known_for_department", kfd),
    ("popularity", pop), ("profile_path", imageUrl "w185" pp),
    ("known_for", kfProj)])

/-- `handleSearchPeople`: one `/search/person` request, then the people
search projection. -/
def handleSearchPeople (v : SearchArgs) (fetch : Fetch) :
    Except String String × List Request :=
  let req : Request := ⟨"/search/person", [("query", v.query), ("page", decimalString v.page)]⟩
  ((do
    let doc ← tmdbGet fetch req
    pagedEnvelope fmtSearchPerson doc), [req])

/-- The projection of `handleGetPersonDetails` (biographical field list; the
profile image uses the `h632` size token, unlike the `w185` used for profile
photos elsewhere). -/
def fmtPersonDetailsDoc (person : Json) : Except String Json := do
  let idv ← person.getField "id"
  let name ← person.getField "name"
  let bio ← person.getField "biography"
  let bday ← person.getField "birthday"
  let dday ← person.getField "deathday"
  let pob ← person.getField "place_of_birth"
  let aka ← person.getField "also_known_as"
  let kfd ← person.getField "known_for_department"
  let pop ← person.getField "popularity"
  let hp ← person.getField "homepage"
  let imdb ← person.getField "imdb_id"
  let pp ← person.getField "profile_path"
  pure (.obj [("id", idv), ("name", name), ("biography", bio),
    ("birthday", bday), ("deathday", dday), ("place_of_birth", pob),
    ("also_known_as", aka), ("known_for_department", kfd),
    ("popularity", pop), ("homepage", hp), ("imdb_id", imdb),
    ("profile_path", imageUrl "h632" pp)])

/-- `handleGetPersonDetails`: one `/person/{id}` request (client method
modelled from the spec as the symmetric single-GET operation,
`TMDBClient.getPersonDetails` being absent from the source files), then the
person details projection. -/
def handleGetPersonDetails (personId : Rat) (fetch : Fetch) :
    Except String String × List Request :=
  let req : Request := ⟨"/person/" ++ decimalString personId, []⟩
  ((do
    let doc ← tmdbGet fetch req
    let d ← fmtPersonDetailsDoc doc
    pure (Json.stringify d)), [req])

/-! ## Dispatcher (`src/index.ts`, `CallToolRequestSchema` handler)

The dispatcher is a switch over the tool name: each case parses the
arguments with the tool's Zod schema and runs the handler; the default case
throws `Unknown tool: <name>`.  The whole switch is wrapped in one
try/catch: a thrown value that is an `Error` instance becomes
`{content: [{type: "text", text: "Error: " + message}], isError: true}` and
anything else is re-thrown.  A successful case returns
`{content: [{type: "text", text: result}]}` with no `isError` entry. -/

/-- One entry of a `CallResult.content` list: `{type: "text", text}`. -/
structure ContentBlock where
  type : String
  text : String

/-- The protocol result returned to the transport layer.  `isError` is
`Option Bool` because the success branch of the source sets no `isError`
key at all: `none` models the absent (undefined) entry, `some b` an
explicitly set boolean. -/
structure CallResult where
  content : List ContentBlock
  isError : Option Bool

/-- A JS thrown value as seen by the dispatcher's catch block: either an
`Error` instance (carrying its `message`) or some non-`Error` value.  Every
throw site inside the dispatched pipeline constructs an `Error` (`new
Error`, Zod's `ZodError`, or a runtime `TypeError`/`SyntaxError`), which is
why the pipeline below produces only the `jsError` form. -/
inductive Thrown : Type where
  | jsError : String → Thrown
  | nonErrorValue : Thrown

/-- Lift the pipeline's thrown `Error` messages into `Thrown`. -/
def liftThrown : Except String α → Except Thrown α
  | .ok a => .ok a
  | .error m => .error (.jsError m)

/-- The switch body of the `CallToolRequestSchema` handler: route on the
tool name (in the source's case order), parse the arguments with the
matching Zod schema, run the matching handler.  The default case throws
`Unknown tool: <name>`.  Paired with the list of upstream requests issued
(empty whenever validation fails or the name is unknown). -/
def dispatchInner (name : String) (args : Json) (fetch : Fetch) :
    Except String String × List Request :=
  if name = "search_movies" then
    match parseSearchArgs args with
    | .error m => (.error m, [])
    | .ok v => handleSearchMovies v fetch
  else if name = "get_movie_details" then
    match parseIdArg "movie_id" args with
    | .error m => (.error m, [])
    | .ok i => handleGetMovieDetails i fetch
  else if name = "discover_movies" then
    match parseDiscoverMoviesArgs args with
    | .error m => (.error m, [])
    | .ok v => handleDiscoverMovies v fetch
  else if name = "get_recommendations" then
    match parseIdPageArgs "movie_id" args with
    | .error m => (.error m, [])
    | .ok v => handleGetRecommendations v fetch
  else if name = "search_tv_shows" then
    match parseSearchArgs args with
    | .error m => (.error m, [])
    | .ok v => handleSearchTVShows v fetch
  else if name = "get_tv_details" then
    match parseIdArg "tv_id" args with
    | .error m => (.error m, [])
    | .ok i => handleGetTVShowDetails i fetch
  else if name = "get_trending" then
    match parseTrendingArgs args with
    | .error m => (.error m, [])
    | .ok v => handleGetTrending v fetch
  else if name = "get_movie_credits" then
    match parseIdArg "movie_id" args with
    | .error m => (.error m, [])
    | .ok i => handleGetMovieCredits i fetch
  else if name = "search_people" then
    match parseSearchArgs args with
    | .error m => (.error m, [])
    | .ok v => handleSearchPeople v fetch
  else if name = "get_person_details" then
    match parseIdArg "person_id" args with
    | .error m => (.error m, [])
    | .ok i => handleGetPersonDetails i fetch
  else if name = "discover_tv_shows" then
    match parseDiscoverTVArgs args with
    | .error m => (.error m, [])
    | .ok v => handleDiscoverTVShows v fetch
  else if name = "get_tv_recommendations" then
    match parseIdPageArgs "tv_id" args with
    | .error m => (.error m, [])
    | .ok v => handleGetTVRecommendations v fetch
  else if name = "get_tv_credits" then
    match parseIdArg "tv_id" args with
    | .error m => (.error m, [])
    | .ok i => handleGetTVCredits i fetch
  else
    (.error ("Unknown tool: " ++ name), [])

/-- The full dispatcher: run the switch inside the try/catch.  A successful
case yields `{content: [{type: "text", text}]}` with no `isError` entry; a
thrown `Error` yields `{content: [{type: "text", text: "Error: " +
message}], isError: true}`; a thrown non-`Error` value is re-thrown to the
transport layer (the `Except.error` outcome). -/
def dispatch (name : String) (args : Json) (fetch : Fetch) :
    Except Thrown CallResult :=
  match liftThrown (dispatchInner name args fetch).1 with
  | .ok text => .ok ⟨[⟨"text", text⟩], none⟩
  | .error (.jsError m) => .ok ⟨[⟨"text", "Error: " ++ m⟩], some true⟩
  | .error .nonErrorValue => .error .nonErrorValue

/-- The upstream requests issued while serving one call. -/
def dispatchRequests (name : String) (args : Json) (fetch : Fetch) : List Request :=
  (dispatchInner name args fetch).2

/-! ## Tool registry

The registry is the static array returned by the `ListToolsRequestSchema`
handler; each entry's `name` is the routing key of the dispatcher.  The
spec's `resolve(name)` operation (§4.4) has no direct counterpart in the
source — lookup happens via the dispatcher's switch — so `resolveTool` is
modelled from the spec: return the registered name matching exactly, or a
not-found outcome. -/

/-- The names of the 13 registered tools, in the order of the
`ListToolsRequestSchema` handler's array. -/
def registeredToolNames : List String :=
  ["search_movies", "get_movie_details", "discover_movies", "get_recommendations",
   "get_trending", "get_movie_credits", "search_tv_shows", "get_tv_details",
   "discover_tv_shows", "get_tv_recommendations", "get_tv_credits",
   "search_people", "get_person_details"]

/-- Modelled from the spec: `resolve(name)` returns the registered name that
matches exactly, and `none` (not-found, never a crash) otherwise. -/
def resolveTool (name : String) : Option String :=
  registeredToolNames.find? (fun n => n == name)

/-! ## Statement-level helpers

Pure twins of the monadic per-element projections.  A property read on a
`null`/`undefined` element throws, so the monadic mappers equal their pure
twins exactly on elements that are not nullish; the lemmas below record that
correspondence, which lets the claim theorems state projected lists as plain
`List.map`/`List.filter`/`List.take` of the upstream lists. -/

/-- True for every JS value on which a property read does not throw. -/
def Json.nonNullish : Json → Bool
  | .null => false
  | .undefined => false
  | _ => true

/-- On a non-nullish receiver, a property read returns the pure lookup. -/
theorem getField_of_nonNullish (v : Json) (h : v.nonNullish = true) (k : String) :
    v.getField k = .ok (v.field k) := by
  cases v <;> simp_all [Json.nonNullish, Json.getField, Json.field]

/-- Pure twin of `fmtMovieCastMember`. -/
def movieCastProj (m : Json) : Json :=
  .obj [("id", m.field "id"), ("name", m.field "name"),
    ("character", m.field "character"), ("order", m.field "order"),
    ("profile_path", imageUrl "w185" (m.field "profile_path"))]

/-- Pure twin of `fmtTVCastMember`. -/
def tvCastProj (m : Json) : Json :=
  .obj [("id", m.field "id"), ("name", m.field "name"),
    ("character", m.field "character"),
    ("profile_path", imageUrl "w185" (m.field "profile_path"))]

/-- Pure twin of `fmtCrewMember`. -/
def crewProj (m : Json) : Json :=
  .obj [("id", m.field "id"), ("name", m.field "name"),
    ("job", m.field "job"), ("department", m.field "department")]

/-- Pure twin of the crew filter callback: the element's `job` is a string
in the allow-list. -/
def jobIsKey (keyJobs : List String) (m : Json) : Bool :=
  match m.field "job" with
  | .str s => keyJobs.contains s
  | _ => false

/-- Pure twin of `fmtTrendingItem`: the branch on the `media_type`
discriminator, with the person-shaped branch receiving both `"person"` and
every unrecognized discriminator value. -/
def trendingProj (item : Json) : Json :=
  let mt := item.field "media_type"
  if mt.strictEqStr "movie" then
    .obj [("id", item.field "id"), ("media_type", mt),
      ("popularity", item.field "popularity"),
      ("vote_average", item.field "vote_average"),
      ("title", item.field "title"),
      ("release_date", item.field "release_date"),
      ("overview", item.field "overview")]
  else if mt.strictEqStr "tv" then
    .obj [("id", item.field "id"), ("media_type", mt),
      ("popularity", item.field "popularity"),
      ("vote_average", item.field "vote_average"),
      ("name", item.field "name"),
      ("first_air_date", item.field "first_air_date"),
      ("overview", item.field "overview")]
  else
    .obj [("id", item.field "id"), ("media_type", mt),
      ("popularity", item.field "popularity"),
      ("vote_average", item.field "vote_average"),
      ("name", item.field "name"),
      ("known_for_department", item.field "known_for_department")]

/-- Reduction of a bind whose first component already succeeded (the
do-chains below consist of property reads that succeed on non-nullish
receivers). -/
theorem exBindOk (a : α) (f : α → Except String β) :
    (Except.ok a : Except String α) >>= f = f a := rfl

/-- Reduction of a bind whose first component threw: the error propagates. -/
theorem exBindErr (e : String) (f : α → Except String β) :
    (Except.error e : Except String α) >>= f = .error e := rfl

/-- Mapping over a thrown computation keeps the error. -/
theorem exMapErr (e : String) (f : α → β) :
    f <$> (Except.error e : Except String α) = .error e := rfl

/-- `fmtMovieCastMember` agrees with its pure twin on non-nullish elements. -/
theorem fmtMovieCastMember_eq (m : Json) (h : m.nonNullish = true) :
    fmtMovieCastMember m = .ok (movieCastProj m) := by
  simp [fmtMovieCastMember, movieCastProj, exBindOk, getField_of_nonNullish m h]

/-- `fmtTVCastMember` agrees with its pure twin on non-nullish elements. -/
theorem fmtTVCastMember_eq (m : Json) (h : m.nonNullish = true) :
    fmtTVCastMember m = .ok (tvCastProj m) := by
  simp [fmtTVCastMember, tvCastProj, exBindOk, getField_of_nonNullish m h]

/-- `fmtCrewMember` agrees with its pure twin on non-nullish elements. -/
theorem fmtCrewMember_eq (m : Json) (h : m.nonNullish = true) :
    fmtCrewMember m = .ok (crewProj m) := by
  simp [fmtCrewMember, crewProj, exBindOk, getField_of_nonNullish m h]

/-- The crew filter callback agrees with its pure twin on non-nullish
elements. -/
theorem jobInAllowList_eq (jobs : List String) (m : Json) (h : m.nonNullish = true) :
    jobInAllowList jobs m = .ok (jobIsKey jobs m) := by
  simp [jobInAllowList, jobIsKey, exBindOk, getField_of_nonNullish m h]

/-- `fmtTrendingItem` agrees with its pure twin on non-nullish elements. -/
theorem fmtTrendingItem_eq (item : Json) (h : item.nonNullish = true) :
    fmtTrendingItem item = .ok (trendingProj item) := by
  simp only [fmtTrendingItem, trendingProj, exBindOk, getField_of_nonNullish item h]
  by_cases h1 : (item.field "media_type").strictEqStr "movie" = true <;>
    by_cases h2 : (item.field "media_type").strictEqStr "tv" = true <;>
      simp [h1, h2, pure, Except.pure]

/-- A monadic mapper that agrees with a pure function on non-nullish
elements maps a list of non-nullish elements to its pure image. -/
theorem mapME_eq_map (f : Json → Except String Json) (g : Json → Json)
    (hfg : ∀ m, m.nonNullish = true → f m = .ok (g m)) :
    ∀ l : List Json, (∀ m ∈ l, m.nonNullish = true) →
      mapME f l = .ok (l.map g) := by
  intro l
  induction l with
  | nil => intro _; rfl
  | cons x xs ih =>
      intro h
      have hx := hfg x (h x (by simp))
      have hxs := ih (fun m hm => h m (by simp [hm]))
      simp [mapME, hx, hxs, exBindOk, pure, Except.pure]

/-- The monadic crew filter over non-nullish elements is the pure
`List.filter` by the allow-list membership of each element's `job`. -/
theorem filterME_eq_filter (jobs : List String) :
    ∀ l : List Json, (∀ m ∈ l, m.nonNullish = true) →
      filterME (jobInAllowList jobs) l = .ok (l.filter (jobIsKey jobs)) := by
  intro l
  induction l with
  | nil => intro _; rfl
  | cons x xs ih =>
      intro h
      have hx := jobInAllowList_eq jobs x (h x (by simp))
      have hxs := ih (fun m hm => h m (by simp [hm]))
      simp only [filterME, hx, hxs, exBindOk, List.filter]
      cases jobIsKey jobs x <;> simp [pure, Except.pure, exBindOk]

/-! ## Claim theorems -/

/-- A sample upstream search document used by concrete dispatches in the
witnesses below. -/
def sampleSearchFetch : Fetch := fun _ => .resp true (.obj
  [("page", .num 1), ("total_results", .num 1), ("total_pages", .num 1),
   ("results", .arr [.obj [("id", .num 5), ("title", .str "Inception"),
     ("original_title", .str "Inception"), ("release_date", .str "2010-07-15"),
     ("overview", .str "A mind-bending heist."), ("vote_average", .num 8),
     ("vote_count", .num 3), ("popularity", .num 9),
     ("poster_path", .str "/abc.jpg"), ("backdrop_path", Json.null)]])])

/-- The projection the server derives from `sampleSearchFetch`'s document. -/
def sampleSearchProjected : Json := .obj
  [("page", .num 1), ("total_results", .num 1), ("total_pages", .num 1),
   ("results", .arr [.obj [("id", .num 5), ("title", .str "Inception"),
     ("original_title", .str "Inception"), ("release_date", .str "2010-07-15"),
     ("overview", .str "A mind-bending heist."), ("vote_average", .num 8),
     ("vote_count", .num 3), ("popularity", .num 9),
     ("poster_path", .str "https://image.tmdb.org/t/p/w500/abc.jpg"),
     ("backdrop_path", Json.null)]])]

/-- C1: for every inbound tool call — whatever the tool name, argument bag
and upstream behaviour — the dispatcher returns a well-formed CallResult
(the re-throw branch for non-Error values is never reached, since every
failure of the dispatched pipeline is a thrown Error), and every pipeline
failure surfaces as a CallResult with isError true carrying the
human-readable message. -/
theorem dispatch_never_escapes (name : String) (args : Json) (fetch : Fetch) :
    (∃ r : CallResult, dispatch name args fetch = .ok r) ∧
    (∀ m, (dispatchInner name args fetch).1 = .error m →
      dispatch name args fetch = .ok ⟨[⟨"text", "Error: " ++ m⟩], some true⟩) := by
  constructor
  · cases h : (dispatchInner name args fetch).1 with
    | error m =>
        exact ⟨⟨[⟨"text", "Error: " ++ m⟩], some true⟩, by simp [dispatch, liftThrown, h]⟩
    | ok s => exact ⟨⟨[⟨"text", s⟩], none⟩, by simp [dispatch, liftThrown, h]⟩
  · intro m h
    simp [dispatch, liftThrown, h]

/-- Witness for C1: a concrete failing call (unknown tool name) produces the
error-shaped CallResult and nothing escapes. -/
theorem dispatch_never_escapes_witness :
    (dispatchInner "no_such_tool" Json.undefined (fun _ => .netFail "down")).1
        = .error ("Unknown tool: " ++ "no_such_tool") ∧
    dispatch "no_such_tool" Json.undefined (fun _ => .netFail "down")
        = .ok ⟨[⟨"text", "Error: " ++ ("Unknown tool: " ++ "no_such_tool")⟩], some true⟩ :=
  ⟨rfl, (dispatch_never_escapes "no_such_tool" Json.undefined (fun _ => .netFail "down")).2
    ("Unknown tool: " ++ "no_such_tool") rfl⟩

/-- Counterexample for C2 as stated: a dispatch that completes successfully
returns content with exactly one text block holding the serialized
projection, but its isError is the absent entry (`none`), not the explicit
boolean `false`. -/
theorem dispatch_success_isError_absent_cex :
    dispatch "search_movies" (.obj [("query", .str "Inception")]) sampleSearchFetch
        = .ok ⟨[⟨"text", Json.stringify sampleSearchProjected⟩], none⟩ ∧
    (none : Option Bool) ≠ some false := ⟨rfl, by decide⟩

/-- C2 (amended): every dispatch that completes successfully returns a
CallResult whose content is exactly one text block holding the pipeline's
serialized ProjectedResult and whose isError entry is absent (undefined —
falsy on the wire, but not the literal `false`). -/
theorem dispatch_success_shape (name : String) (args : Json) (fetch : Fetch)
    (s : String) (h : (dispatchInner name args fetch).1 = .ok s) :
    dispatch name args fetch = .ok ⟨[⟨"text", s⟩], none⟩ := by
  simp [dispatch, liftThrown, h]

/-- Witness for C2: the sample search dispatch completes successfully and
returns the single serialized text block with no isError entry. -/
theorem dispatch_success_shape_witness :
    (dispatchInner "search_movies" (.obj [("query", .str "Inception")])
        sampleSearchFetch).1 = .ok (Json.stringify sampleSearchProjected) ∧
    dispatch "search_movies" (.obj [("query", .str "Inception")]) sampleSearchFetch
        = .ok ⟨[⟨"text", Json.stringify sampleSearchProjected⟩], none⟩ :=
  ⟨rfl, dispatch_success_shape "search_movies" (.obj [("query", .str "Inception")])
    sampleSearchFetch (Json.stringify sampleSearchProjected) rfl⟩

/-- C8: any unregistered tool name — the empty string included — produces an
error CallResult reporting the unknown tool, with no upstream request issued
(the default case of the switch throws before any validator or client code
runs), and the registry resolves such a name to a not-found outcome. -/
theorem unknown_tool_rejected (name : String) (args : Json) (fetch : Fetch)
    (h : name ∉ registeredToolNames) :
    dispatch name args fetch
        = .ok ⟨[⟨"text", "Error: " ++ ("Unknown tool: " ++ name)⟩], some true⟩ ∧
    dispatchRequests name args fetch = [] ∧
    resolveTool name = none := by
  simp only [registeredToolNames, List.mem_cons, List.not_mem_nil, or_false,
    not_or] at h
  obtain ⟨h1, h2, h3, h4, h5, h6, h7, h8, h9, h10, h11, h12, h13⟩ := h
  have hinner : dispatchInner name args fetch = (.error ("Unknown tool: " ++ name), []) := by
    simp [dispatchInner, h1, h2, h3, h4, h5, h6, h7, h8, h9, h10, h11, h12, h13]
  refine ⟨?_, ?_, ?_⟩
  · simp [dispatch, hinner, liftThrown]
  · simp [dispatchRequests, hinner]
  · rw [resolveTool, List.find?_eq_none]
    intro x hx
    simp only [beq_iff_eq]
    intro he
    subst he
    revert hx
    simp [registeredToolNames, h1, h2, h3, h4, h5, h6, h7, h8, h9, h10, h11, h12, h13]

/-- Witness for C8: the empty string is unregistered, yields the unknown-tool
error result, issues no upstream request, and resolves to not-found. -/
theorem unknown_tool_rejected_witness :
    "" ∉ registeredToolNames ∧
    dispatch "" Json.undefined (fun _ => .netFail "down")
        = .ok ⟨[⟨"text", "Error: " ++ ("Unknown tool: " ++ "")⟩], some true⟩ ∧
    dispatchRequests "" Json.undefined (fun _ => .netFail "down") = [] ∧
    resolveTool "" = none :=
  ⟨by decide, unknown_tool_rejected "" Json.undefined (fun _ => .netFail "down") (by decide)⟩

/-- C10: for each of the three search tools, an argument bag whose `query`
field is present but equal to the empty string fails the
`z.string().min(1)` check, so the dispatch returns an error CallResult and
issues no upstream request. -/
theorem empty_query_rejected (fs : List (String × Json)) (fetch : Fetch)
    (h : bagField fs "query" = .str "") :
    (dispatch "search_movies" (.obj fs) fetch
        = .ok ⟨[⟨"text", "Error: " ++ zodFailMsg⟩], some true⟩ ∧
     dispatchRequests "search_movies" (.obj fs) fetch = []) ∧
    (dispatch "search_tv_shows" (.obj fs) fetch
        = .ok ⟨[⟨"text", "Error: " ++ zodFailMsg⟩], some true⟩ ∧
     dispatchRequests "search_tv_shows" (.obj fs) fetch = []) ∧
    (dispatch "search_people" (.obj fs) fetch
        = .ok ⟨[⟨"text", "Error: " ++ zodFailMsg⟩], some true⟩ ∧
     dispatchRequests "search_people" (.obj fs) fetch = []) := by
  have hq : zodString1 (bagField fs "query") = none := by rw [h]; rfl
  have hp : parseSearchArgs (.obj fs) = .error zodFailMsg := by
    unfold parseSearchArgs
    cases hpg : zodPosIntD1 (bagField fs "page") <;> simp [hq, hpg]
  have hm : dispatchInner "search_movies" (.obj fs) fetch = (.error zodFailMsg, []) := by
    simp [dispatchInner, hp]
  have ht : dispatchInner "search_tv_shows" (.obj fs) fetch = (.error zodFailMsg, []) := by
    simp [dispatchInner, hp]
  have hpe : dispatchInner "search_people" (.obj fs) fetch = (.error zodFailMsg, []) := by
    simp [dispatchInner, hp]
  exact ⟨⟨by simp [dispatch, hm, liftThrown], by simp [dispatchRequests, hm]⟩,
    ⟨by simp [dispatch, ht, liftThrown], by simp [dispatchRequests, ht]⟩,
    ⟨by simp [dispatch, hpe, liftThrown], by simp [dispatchRequests, hpe]⟩⟩

/-- Witness for C10: the concrete bag with `query: ""` is rejected by all
three search tools with no upstream request. -/
theorem empty_query_rejected_witness :
    bagField [("query", Json.str "")] "query" = .str "" ∧
    (dispatch "search_movies" (.obj [("query", Json.str "")]) (fun _ => .netFail "down")
        = .ok ⟨[⟨"text", "Error: " ++ zodFailMsg⟩], some true⟩ ∧
     dispatchRequests "search_movies" (.obj [("query", Json.str "")])
        (fun _ => .netFail "down") = []) ∧
    (dispatch "search_tv_shows" (.obj [("query", Json.str "")]) (fun _ => .netFail "down")
        = .ok ⟨[⟨"text", "Error: " ++ zodFailMsg⟩], some true⟩ ∧
     dispatchRequests "search_tv_shows" (.obj [("query", Json.str "")])
        (fun _ => .netFail "down") = []) ∧
    (dispatch "search_people" (.obj [("query", Json.str "")]) (fun _ => .netFail "down")
        = .ok ⟨[⟨"text", "Error: " ++ zodFailMsg⟩], some true⟩ ∧
     dispatchRequests "search_people" (.obj [("query", Json.str "")])
        (fun _ => .netFail "down") = []) :=
  ⟨rfl, empty_query_rejected [("query", Json.str "")] (fun _ => .netFail "down") rfl⟩

/-- Helper for C6: whenever the `min_rating` field check fails, the whole
`DiscoverMoviesSchema` parse fails (Zod aggregates per-field issues and
fails if any field has one). -/
theorem parseDiscoverMovies_err_of_bad_min (fs : List (String × Json))
    (h : zodOptRating (bagField fs "min_rating") = none) :
    parseDiscoverMoviesArgs (.obj fs) = .error zodFailMsg := by
  unfold parseDiscoverMoviesArgs
  cases h1 : zodOptString (bagField fs "with_genres") <;>
  cases h2 : zodOptInt (bagField fs "year") <;>
  cases h3 : zodOptRating (bagField fs "max_rating") <;>
  cases h4 : zodEnumD movieSortOptions "popularity.desc" (bagField fs "sort_by") <;>
  cases h5 : zodPosIntD1 (bagField fs "page") <;>
  simp [h, h1, h2, h3, h4, h5]

/-- Helper for C6: the same for a failing `max_rating` field check. -/
theorem parseDiscoverMovies_err_of_bad_max (fs : List (String × Json))
    (h : zodOptRating (bagField fs "max_rating") = none) :
    parseDiscoverMoviesArgs (.obj fs) = .error zodFailMsg := by
  unfold parseDiscoverMoviesArgs
  cases h1 : zodOptString (bagField fs "with_genres") <;>
  cases h2 : zodOptInt (bagField fs "year") <;>
  cases h3 : zodOptRating (bagField fs "min_rating") <;>
  cases h4 : zodEnumD movieSortOptions "popularity.desc" (bagField fs "sort_by") <;>
  cases h5 : zodPosIntD1 (bagField fs "page") <;>
  simp [h, h1, h2, h3, h4, h5]

/-- C6: the `[0, 10]` rating bounds of `DiscoverMoviesSchema` are inclusive
— 0 and 10 validate for both `min_rating` and `max_rating` — and any bag
whose rating value lies outside the range fails validation, so the dispatch
returns an error CallResult and issues zero upstream requests. -/
theorem rating_bounds_inclusive :
    parseDiscoverMoviesArgs (.obj [("min_rating", .num 0), ("max_rating", .num 10)])
        = .ok ⟨none, none, some 0, some 10, "popularity.desc", 1⟩ ∧
    parseDiscoverMoviesArgs (.obj [("min_rating", .num 10), ("max_rating", .num 0)])
        = .ok ⟨none, none, some 10, some 0, "popularity.desc", 1⟩ ∧
    (∀ (fs : List (String × Json)) (fetch : Fetch) (x : Rat),
      bagField fs "min_rating" = .num x → ¬(0 ≤ x ∧ x ≤ 10) →
      dispatch "discover_movies" (.obj fs) fetch
          = .ok ⟨[⟨"text", "Error: " ++ zodFailMsg⟩], some true⟩ ∧
      dispatchRequests "discover_movies" (.obj fs) fetch = []) ∧
    (∀ (fs : List (String × Json)) (fetch : Fetch) (x : Rat),
      bagField fs "max_rating" = .num x → ¬(0 ≤ x ∧ x ≤ 10) →
      dispatch "discover_movies" (.obj fs) fetch
          = .ok ⟨[⟨"text", "Error: " ++ zodFailMsg⟩], some true⟩ ∧
      dispatchRequests "discover_movies" (.obj fs) fetch = []) := by
  refine ⟨rfl, rfl, ?_, ?_⟩
  · intro fs fetch x hx hout
    have hz : zodOptRating (bagField fs "min_rating") = none := by
      rw [hx]; simp [zodOptRating, hout]
    have hp := parseDiscoverMovies_err_of_bad_min fs hz
    have hi : dispatchInner "discover_movies" (.obj fs) fetch = (.error zodFailMsg, []) := by
      simp [dispatchInner, hp]
    exact ⟨by simp [dispatch, hi, liftThrown], by simp [dispatchRequests, hi]⟩
  · intro fs fetch x hx hout
    have hz : zodOptRating (bagField fs "max_rating") = none := by
      rw [hx]; simp [zodOptRating, hout]
    have hp := parseDiscoverMovies_err_of_bad_max fs hz
    have hi : dispatchInner "discover_movies" (.obj fs) fetch = (.error zodFailMsg, []) := by
      simp [dispatchInner, hp]
    exact ⟨by simp [dispatch, hi, liftThrown], by simp [dispatchRequests, hi]⟩

/-- Witness for C6: a `min_rating` of 11 is rejected before any upstream
request is issued. -/
theorem rating_bounds_inclusive_witness :
    bagField [("min_rating", Json.num 11)] "min_rating" = .num 11 ∧
    ¬((0 : Rat) ≤ 11 ∧ (11 : Rat) ≤ 10) ∧
    dispatch "discover_movies" (.obj [("min_rating", Json.num 11)])
        (fun _ => .netFail "down")
        = .ok ⟨[⟨"text", "Error: " ++ zodFailMsg⟩], some true⟩ ∧
    dispatchRequests "discover_movies" (.obj [("min_rating", Json.num 11)])
        (fun _ => .netFail "down") = [] :=
  ⟨rfl, by decide,
   (rating_bounds_inclusive.2.2.1 [("min_rating", Json.num 11)]
      (fun _ => .netFail "down") 11 rfl (by decide)).1,
   (rating_bounds_inclusive.2.2.1 [("min_rating", Json.num 11)]
      (fun _ => .netFail "down") 11 rfl (by decide)).2⟩

/-- C9: for every dispatch that reaches the upstream API — any tool name
and argument bag whose dispatch issues an upstream request — when the
upstream responds with a non-success HTTP status and the TMDB error envelope
`(status_code, status_message, success)`, the dispatch returns an error
CallResult whose message embeds the envelope's `status_message`, and that
message contains the upstream `status_message` as a substring. -/
theorem upstream_error_surfaced (c : Rat) (m : String) (name : String)
    (args : Json) (fetch : Fetch)
    (hf : ∀ req, fetch req = .resp false (.obj [("status_code", .num c),
      ("status_message", .str m), ("success", .bool false)]))
    (hr : dispatchRequests name args fetch ≠ []) :
    dispatch name args fetch
        = .ok ⟨[⟨"text", "Error: " ++ ("TMDB API Error: " ++ m)⟩], some true⟩ ∧
    (∃ pre post : String,
      "Error: " ++ ("TMDB API Error: " ++ m) = pre ++ m ++ post) := by
  have hg : ∀ req, tmdbGet fetch req = .error ("TMDB API Error: " ++ m) := by
    intro req
    simp [tmdbGet, hf req, Json.getField, Json.template]
  have hinner : (dispatchInner name args fetch).1
      = .error ("TMDB API Error: " ++ m) := by
    rw [dispatchRequests] at hr
    by_cases h1 : name = "search_movies"
    · subst h1
      have hred : dispatchInner "search_movies" args fetch
          = (match parseSearchArgs args with
             | .error e => (.error e, [])
             | .ok v => handleSearchMovies v fetch) := rfl
      rw [hred] at hr ⊢
      cases hp : parseSearchArgs args with
      | error e => rw [hp] at hr; simp at hr
      | ok v => simp [handleSearchMovies, hg, exBindErr]
    ·
      by_cases h2 : name = "get_movie_details"
      · subst h2
        have hred : dispatchInner "get_movie_details" args fetch
            = (match parseIdArg "movie_id" args with
               | .error e => (.error e, [])
               | .ok v => handleGetMovieDetails v fetch) := rfl
        rw [hred] at hr ⊢
        cases hp : parseIdArg "movie_id" args with
        | error e => rw [hp] at hr; simp at hr
        | ok v => simp [handleGetMovieDetails, hg, exBindErr]
      ·
        by_cases h3 : name = "discover_movies"
        · subst h3
          have hred : dispatchInner "discover_movies" args fetch
              = (match parseDiscoverMoviesArgs args with
                 | .error e => (.error e, [])
                 | .ok v => handleDiscoverMovies v fetch) := rfl
          rw [hred] at hr ⊢
          cases hp : parseDiscoverMoviesArgs args with
          | error e => rw [hp] at hr; simp at hr
          | ok v => simp [handleDiscoverMovies, hg, exBindErr]
        ·
          by_cases h4 : name = "get_recommendations"
          · subst h4
            have hred : dispatchInner "get_recommendations" args fetch
                = (match parseIdPageArgs "movie_id" args with
                   | .error e => (.error e, [])
                   | .ok v => handleGetRecommendations v fetch) := rfl
            rw [hred] at hr ⊢
            cases hp : parseIdPageArgs "movie_id" args with
            | error e => rw [hp] at hr; simp at hr
            | ok v => simp [handleGetRecommendations, hg, exBindErr]
          ·
            by_cases h5 : name = "search_tv_shows"
            · subst h5
              have hred : dispatchInner "search_tv_shows" args fetch
                  = (match parseSearchArgs args with
                     | .error e => (.error e, [])
                     | .ok v => handleSearchTVShows v fetch) := rfl
              rw [hred] at hr ⊢
              cases hp : parseSearchArgs args with
              | error e => rw [hp] at hr; simp at hr
              | ok v => simp [handleSearchTVShows, hg, exBindErr]
            ·
              by_cases h6 : name = "get_tv_details"
              · subst h6
                have hred : dispatchInner "get_tv_details" args fetch
                    = (match parseIdArg "tv_id" args with
                       | .error e => (.error e, [])
                       | .ok v => handleGetTVShowDetails v fetch) := rfl
                rw [hred] at hr ⊢
                cases hp : parseIdArg "tv_id" args with
                | error e => rw [hp] at hr; simp at hr
                | ok v => simp [handleGetTVShowDetails, hg, exBindErr]
              ·
                by_cases h7 : name = "get_trending"
                · subst h7
                  have hred : dispatchInner "get_trending" args fetch
                      = (match parseTrendingArgs args with
                         | .error e => (.error e, [])
                         | .ok v => handleGetTrending v fetch) := rfl
                  rw [hred] at hr ⊢
                  cases hp : parseTrendingArgs args with
                  | error e => rw [hp] at hr; simp at hr
                  | ok v => simp [handleGetTrending, hg, exBindErr]
                ·
                  by_cases h8 : name = "get_movie_credits"
                  · subst h8
                    have hred : dispatchInner "get_movie_credits" args fetch
                        = (match parseIdArg "movie_id" args with
                           | .error e => (.error e, [])
                           | .ok v => handleGetMovieCredits v fetch) := rfl
                    rw [hred] at hr ⊢
                    cases hp : parseIdArg "movie_id" args with
                    | error e => rw [hp] at hr; simp at hr
                    | ok v => simp [handleGetMovieCredits, hg, exBindErr]
                  ·
                    by_cases h9 : name = "search_people"
                    · subst h9
                      have hred : dispatchInner "search_people" args fetch
                          = (match parseSearchArgs args with
                             | .error e => (.error e, [])
                             | .ok v => handleSearchPeople v fetch) := rfl
                      rw [hred] at hr ⊢
                      cases hp : parseSearchArgs args with
                      | error e => rw [hp] at hr; simp at hr
                      | ok v => simp [handleSearchPeople, hg, exBindErr]
                    ·
                      by_cases h10 : name = "get_person_details"
                      · subst h10
                        have hred : dispatchInner "get_person_details" args fetch
                            = (match parseIdArg "person_id" args with
                               | .error e => (.error e, [])
                               | .ok v => handleGetPersonDetails v fetch) := rfl
                        rw [hred] at hr ⊢
                        cases hp : parseIdArg "person_id" args with
                        | error e => rw [hp] at hr; simp at hr
                        | ok v => simp [handleGetPersonDetails, hg, exBindErr]
                      ·
                        by_cases h11 : name = "discover_tv_shows"
                        · subst h11
                          have hred : dispatchInner "discover_tv_shows" args fetch
                              = (match parseDiscoverTVArgs args with
                                 | .error e => (.error e, [])
                                 | .ok v => handleDiscoverTVShows v fetch) := rfl
                          rw [hred] at hr ⊢
                          cases hp : parseDiscoverTVArgs args with
                          | error e => rw [hp] at hr; simp at hr
                          | ok v => simp [handleDiscoverTVShows, hg, exBindErr]
                        ·
                          by_cases h12 : name = "get_tv_recommendations"
                          · subst h12
                            have hred : dispatchInner "get_tv_recommendations" args fetch
                                = (match parseIdPageArgs "tv_id" args with
                                   | .error e => (.error e, [])
                                   | .ok v => handleGetTVRecommendations v fetch) := rfl
                            rw [hred] at hr ⊢
                            cases hp : parseIdPageArgs "tv_id" args with
                            | error e => rw [hp] at hr; simp at hr
                            | ok v => simp [handleGetTVRecommendations, hg, exBindErr]
                          ·
                            by_cases h13 : name = "get_tv_credits"
                            · subst h13
                              have hred : dispatchInner "get_tv_credits" args fetch
                                  = (match parseIdArg "tv_id" args with
                                     | .error e => (.error e, [])
                                     | .ok v => handleGetTVCredits v fetch) := rfl
                              rw [hred] at hr ⊢
                              cases hp : parseIdArg "tv_id" args with
                              | error e => rw [hp] at hr; simp at hr
                              | ok v => simp [handleGetTVCredits, hg, exBindErr]
                            · exfalso
                              apply hr
                              simp [dispatchInner, h1, h2, h3, h4, h5, h6, h7, h8, h9, h10, h11, h12, h13]
  exact ⟨by simp [dispatch, liftThrown, hinner],
    ⟨"Error: TMDB API Error: ", "", by rw [String.append_empty]; exact rfl⟩⟩

/-- Witness for C9: a search dispatch against an HTTP 404 whose envelope
carries status_code 34 and status_message "Resource not found" issues its
upstream request and returns an error CallResult whose message contains
"Resource not found". -/
theorem upstream_error_surfaced_witness :
    dispatchRequests "search_movies" (.obj [("query", .str "q")])
        (fun _ => .resp false (.obj [("status_code", .num 34),
          ("status_message", .str "Resource not found"), ("success", .bool false)]))
        ≠ [] ∧
    dispatch "search_movies" (.obj [("query", .str "q")])
        (fun _ => .resp false (.obj [("status_code", .num 34),
          ("status_message", .str "Resource not found"), ("success", .bool false)]))
        = .ok ⟨[⟨"text", "Error: " ++ ("TMDB API Error: " ++ "Resource not found")⟩],
            some true⟩ ∧
    "Error: " ++ ("TMDB API Error: " ++ "Resource not found")
        = "Error: TMDB API Error: " ++ "Resource not found" ++ "" :=
  ⟨by decide,
   (upstream_error_surfaced 34 "Resource not found" "search_movies"
      (.obj [("query", .str "q")])
      (fun _ => .resp false (.obj [("status_code", .num 34),
        ("status_message", .str "Resource not found"), ("success", .bool false)]))
      (fun _ => rfl) (by decide)).1,
   rfl⟩

/-- Counterexample for C3 as stated: `min_rating = 0` is caller-supplied and
validates (the bound is inclusive), yet the `if (params.x)` truthiness guard
in `TMDBClient.discoverMovies` drops the stringified 0, so the issued query
contains no `vote_average.gte` key at all. -/
theorem discover_query_zero_dropped_cex :
    parseDiscoverMoviesArgs (.obj [("min_rating", Json.num 0)])
        = .ok ⟨none, none, some 0, none, "popularity.desc", 1⟩ ∧
    dispatchRequests "discover_movies" (.obj [("min_rating", Json.num 0)])
        (fun _ => .netFail "down")
        = [⟨"/discover/movie", [("sort_by", "popularity.desc"), ("page", "1")]⟩] ∧
    List.lookup "vote_average.gte" (discoverMoviesQuery
        (discoverClientParamsOf ⟨none, none, some 0, none, "popularity.desc", 1⟩))
        = none :=
  ⟨rfl, rfl, rfl⟩


/-- Helper for C3: membership in a string segment of the query. -/
theorem mem_strSeg (x : String × String) (k : String) (o : Option String) :
    x ∈ strSeg k o ↔ ∃ s, o = some s ∧ s ≠ "" ∧ x = (k, s) := by
  cases o with
  | none => simp [strSeg]
  | some s => by_cases hs : s = "" <;> simp [strSeg, hs]

/-- Helper for C3: membership in a numeric segment of the query. -/
theorem mem_numSeg (x : String × String) (k : String) (o : Option Rat) :
    x ∈ numSeg k o ↔ ∃ q, o = some q ∧ q ≠ 0 ∧ x = (k, decimalString q) := by
  cases o with
  | none => simp [numSeg]
  | some q => by_cases hq : q = 0 <;> simp [numSeg, hq]

/-- C3 (amended): the `discover_movies` query is built from the declared
field-to-upstream-key mapping over ValidatedArguments, but a field is
included exactly when its value is JS-truthy: a caller-supplied truthy value
is stringified under its declared key, while an omitted field, a zero
number, or an empty string is dropped from the query entirely (never sent
as an empty or null value); the dispatch issues exactly one upstream request
carrying exactly this query. -/
theorem discover_query_truthy_inclusion (v : DiscoverMoviesArgs) :
    (∀ s, ("with_genres", s) ∈ discoverMoviesQuery (discoverClientParamsOf v)
        ↔ v.with_genres = some s ∧ s ≠ "") ∧
    (∀ s, ("primary_release_year", s) ∈ discoverMoviesQuery (discoverClientParamsOf v)
        ↔ ∃ r, v.year = some r ∧ r ≠ 0 ∧ s = decimalString r) ∧
    (∀ s, ("vote_average.gte", s) ∈ discoverMoviesQuery (discoverClientParamsOf v)
        ↔ ∃ r, v.min_rating = some r ∧ r ≠ 0 ∧ s = decimalString r) ∧
    (∀ s, ("vote_average.lte", s) ∈ discoverMoviesQuery (discoverClientParamsOf v)
        ↔ ∃ r, v.max_rating = some r ∧ r ≠ 0 ∧ s = decimalString r) ∧
    (∀ s, ("sort_by", s) ∈ discoverMoviesQuery (discoverClientParamsOf v)
        ↔ s = v.sort_by ∧ v.sort_by ≠ "") ∧
    (∀ s, ("page", s) ∈ discoverMoviesQuery (discoverClientParamsOf v)
        ↔ s = decimalString v.page ∧ v.page ≠ 0) ∧
    (∀ (args : Json) (fetch : Fetch), parseDiscoverMoviesArgs args = .ok v →
      dispatchRequests "discover_movies" args fetch
          = [⟨"/discover/movie", discoverMoviesQuery (discoverClientParamsOf v)⟩]) := by
  refine ⟨?_, ?_, ?_, ?_, ?_, ?_, ?_⟩
  · intro s
    simp [discoverMoviesQuery, discoverClientParamsOf, List.mem_append,
      mem_strSeg, mem_numSeg]
  · intro s
    simp [discoverMoviesQuery, discoverClientParamsOf, List.mem_append,
      mem_strSeg, mem_numSeg, eq_comm]
  · intro s
    simp [discoverMoviesQuery, discoverClientParamsOf, List.mem_append,
      mem_strSeg, mem_numSeg, eq_comm]
  · intro s
    simp [discoverMoviesQuery, discoverClientParamsOf, List.mem_append,
      mem_strSeg, mem_numSeg, eq_comm]
  · intro s
    simp [discoverMoviesQuery, discoverClientParamsOf, List.mem_append,
      mem_strSeg, mem_numSeg, and_comm]
  · intro s
    simp [discoverMoviesQuery, discoverClientParamsOf, List.mem_append,
      mem_strSeg, mem_numSeg, eq_comm, and_comm]
  · intro args fetch hp
    simp [dispatchRequests, dispatchInner, hp, handleDiscoverMovies]

/-- Witness for C3: the validated bag with `min_rating: 0` issues exactly one
`/discover/movie` request whose query holds only the defaulted `sort_by` and
`page` entries. -/
theorem discover_query_truthy_inclusion_witness :
    dispatchRequests "discover_movies" (.obj [("min_rating", Json.num 0)])
        (fun _ => .netFail "down")
        = [⟨"/discover/movie", discoverMoviesQuery (discoverClientParamsOf
            ⟨none, none, some 0, none, "popularity.desc", 1⟩)⟩] ∧
    discoverMoviesQuery (discoverClientParamsOf
        ⟨none, none, some 0, none, "popularity.desc", 1⟩)
        = [("sort_by", "popularity.desc"), ("page", "1")] :=
  ⟨(discover_query_truthy_inclusion ⟨none, none, some 0, none, "popularity.desc", 1⟩
    ).2.2.2.2.2.2 (.obj [("min_rating", Json.num 0)]) (fun _ => .netFail "down") rfl,
   rfl⟩

/-- Counterexample for C4 as stated: the profile-photo asset role does not
have a single fixed size token — `get_person_details` renders the same
upstream profile path with `h632` while `search_people` renders it with
`w185` — and a non-null empty-string path projects to `null`, not to a URL
(the guard is JS truthiness, not a null test). -/
theorem image_url_single_token_cex :
    (fmtPersonDetailsDoc (.obj [("profile_path", .str "/abc.jpg")])).map
        (fun o => o.field "profile_path")
        = .ok (.str "https://image.tmdb.org/t/p/h632/abc.jpg") ∧
    (fmtSearchPerson (.obj [("profile_path", .str "/abc.jpg")])).map
        (fun o => o.field "profile_path")
        = .ok (.str "https://image.tmdb.org/t/p/w185/abc.jpg") ∧
    "https://image.tmdb.org/t/p/h632/abc.jpg"
        ≠ "https://image.tmdb.org/t/p/w185/abc.jpg" ∧
    (fmtSearchMovie (.obj [("poster_path", .str "")])).map
        (fun o => o.field "poster_path")
        = .ok Json.null :=
  ⟨rfl, rfl, by decide, rfl⟩

/-- C4 (amended): an asset path that is null, absent, or empty (falsy)
projects to `null`; a non-empty path projects to the fixed image-host prefix
followed by a size token and the raw path, where the token is fixed per
asset role and projection site — `w500` for posters, `original` for
backdrops, `w185` for profile photos in search and credits projections but
`h632` in the person-details projection; in particular a poster path
"/abc.jpg" projects to exactly "https://image.tmdb.org/t/p/w500/abc.jpg". -/
theorem image_url_projection (s : String) (h : s ≠ "") :
    (fmtSearchMovie (.obj [("poster_path", .str s)])).map
        (fun o => o.field "poster_path")
        = .ok (.str ("https://image.tmdb.org/t/p/w500" ++ s)) ∧
    (fmtSearchMovie (.obj [("backdrop_path", .str s)])).map
        (fun o => o.field "backdrop_path")
        = .ok (.str ("https://image.tmdb.org/t/p/original" ++ s)) ∧
    (fmtMovieCastMember (.obj [("profile_path", .str s)])).map
        (fun o => o.field "profile_path")
        = .ok (.str ("https://image.tmdb.org/t/p/w185" ++ s)) ∧
    (fmtSearchPerson (.obj [("profile_path", .str s)])).map
        (fun o => o.field "profile_path")
        = .ok (.str ("https://image.tmdb.org/t/p/w185" ++ s)) ∧
    (fmtPersonDetailsDoc (.obj [("profile_path", .str s)])).map
        (fun o => o.field "profile_path")
        = .ok (.str ("https://image.tmdb.org/t/p/h632" ++ s)) ∧
    (fmtSearchMovie (.obj [("poster_path", Json.null)])).map
        (fun o => o.field "poster_path") = .ok Json.null ∧
    (fmtSearchMovie (.obj [])).map
        (fun o => o.field "poster_path") = .ok Json.null := by
  have ht : Json.truthy (.str s) = true := by simp [Json.truthy, h]
  refine ⟨?_, ?_, ?_, ?_, ?_, rfl, rfl⟩ <;>
    simp [fmtSearchMovie, fmtMovieCastMember, fmtSearchPerson, fmtPersonDetailsDoc,
      Json.getField, Json.field, imageUrl, ht, Json.template, exBindOk, pure,
      Except.pure, imageHost, Except.map, List.find?, Json.truthy, h]

/-- Witness for C4: the path "/abc.jpg" yields the literal poster URL
"https://image.tmdb.org/t/p/w500/abc.jpg" (and the other role tokens). -/
theorem image_url_projection_witness :
    "/abc.jpg" ≠ "" ∧
    (fmtSearchMovie (.obj [("poster_path", .str "/abc.jpg")])).map
        (fun o => o.field "poster_path")
        = .ok (.str ("https://image.tmdb.org/t/p/w500" ++ "/abc.jpg")) :=
  ⟨by decide, (image_url_projection "/abc.jpg" (by decide)).1⟩

/-- C5: for both credits tools, the projected cast is exactly the first 20
upstream cast entries (all if fewer) in upstream billing order, each passed
through the per-member projection, and the projected crew is exactly the
upstream crew entries, in upstream order, whose `job` is in the fixed
allow-list — Director, Producer, Writer, Screenplay, Story, Executive
Producer, plus Creator for TV credits. -/
theorem credits_cast_truncated_crew_filtered :
    (∀ (fetch : Fetch) (movieId : Rat) (idv : Json) (cast crew : List Json),
      (∀ req, fetch req = .resp true
        (.obj [("id", idv), ("cast", .arr cast), ("crew", .arr crew)])) →
      (∀ m ∈ cast, m.nonNullish = true) → (∀ m ∈ crew, m.nonNullish = true) →
      (handleGetMovieCredits movieId fetch).1 =
        .ok (Json.stringify (.obj [("movie_id", idv),
          ("cast", .arr ((cast.take 20).map movieCastProj)),
          ("crew", .arr ((crew.filter (jobIsKey keyJobsMovie)).map crewProj))]))) ∧
    (∀ (fetch : Fetch) (tvId : Rat) (idv : Json) (cast crew : List Json),
      (∀ req, fetch req = .resp true
        (.obj [("id", idv), ("cast", .arr cast), ("crew", .arr crew)])) →
      (∀ m ∈ cast, m.nonNullish = true) → (∀ m ∈ crew, m.nonNullish = true) →
      (handleGetTVCredits tvId fetch).1 =
        .ok (Json.stringify (.obj [("tv_id", idv),
          ("cast", .arr ((cast.take 20).map tvCastProj)),
          ("crew", .arr ((crew.filter (jobIsKey keyJobsTV)).map crewProj))]))) ∧
    keyJobsTV = keyJobsMovie ++ ["Creator"] := by
  refine ⟨?_, ?_, rfl⟩
  · intro fetch movieId idv cast crew h hcast hcrew
    have htake : mapME fmtMovieCastMember (cast.take 20)
        = .ok ((cast.take 20).map movieCastProj) :=
      mapME_eq_map _ _ fmtMovieCastMember_eq _
        (fun m hm => hcast m (List.take_subset 20 cast hm))
    have hfil : filterME (jobInAllowList keyJobsMovie) crew
        = .ok (crew.filter (jobIsKey keyJobsMovie)) :=
      filterME_eq_filter keyJobsMovie crew hcrew
    have hmapcrew : mapME fmtCrewMember (crew.filter (jobIsKey keyJobsMovie))
        = .ok ((crew.filter (jobIsKey keyJobsMovie)).map crewProj) :=
      mapME_eq_map _ _ fmtCrewMember_eq _
        (fun m hm => hcrew m (List.mem_of_mem_filter hm))
    simp [handleGetMovieCredits, tmdbGet, h, Json.getField, Json.asArr,
      List.find?, htake, hfil, hmapcrew, exBindOk, pure, Except.pure]
  · intro fetch tvId idv cast crew h hcast hcrew
    have htake : mapME fmtTVCastMember (cast.take 20)
        = .ok ((cast.take 20).map tvCastProj) :=
      mapME_eq_map _ _ fmtTVCastMember_eq _
        (fun m hm => hcast m (List.take_subset 20 cast hm))
    have hfil : filterME (jobInAllowList keyJobsTV) crew
        = .ok (crew.filter (jobIsKey keyJobsTV)) :=
      filterME_eq_filter keyJobsTV crew hcrew
    have hmapcrew : mapME fmtCrewMember (crew.filter (jobIsKey keyJobsTV))
        = .ok ((crew.filter (jobIsKey keyJobsTV)).map crewProj) :=
      mapME_eq_map _ _ fmtCrewMember_eq _
        (fun m hm => hcrew m (List.mem_of_mem_filter hm))
    simp [handleGetTVCredits, tmdbGet, h, Json.getField, Json.asArr,
      List.find?, htake, hfil, hmapcrew, exBindOk, pure, Except.pure]

/-- One of the 30 sample cast members of the C5 scenario. -/
def cexCastMember (i : Nat) : Json :=
  .obj [("id", .num i), ("name", .str "Actor"), ("character", .str "Role"),
    ("order", .num i), ("profile_path", Json.null)]

/-- The 30-entry sample cast of the C5 scenario, in billing order. -/
def cexCast30 : List Json := (List.range 30).map (fun i => cexCastMember i)

/-- The sample Director crew entry of the C5 scenario. -/
def cexDirector : Json :=
  .obj [("id", .num 100), ("name", .str "Dee"), ("job", .str "Director"),
    ("department", .str "Directing")]

/-- The sample Gaffer crew entry of the C5 scenario. -/
def cexGaffer : Json :=
  .obj [("id", .num 101), ("name", .str "Gee"), ("job", .str "Gaffer"),
    ("department", .str "Lighting")]

/-- The upstream credits oracle of the C5 scenario: 30 cast entries and a
crew of one Director and one Gaffer. -/
def cexCreditsFetch : Fetch := fun _ => .resp true
  (.obj [("id", .num 603), ("cast", .arr cexCast30),
    ("crew", .arr [cexDirector, cexGaffer])])

/-- Witness for C5: against the 30-cast, Director-plus-Gaffer upstream
document, the projection keeps exactly the first 20 cast entries and exactly
the Director. -/
theorem credits_cast_truncated_crew_filtered_witness :
    (handleGetMovieCredits 603 cexCreditsFetch).1 =
      .ok (Json.stringify (.obj [("movie_id", .num 603),
        ("cast", .arr ((cexCast30.take 20).map movieCastProj)),
        ("crew", .arr (([cexDirector, cexGaffer].filter
            (jobIsKey keyJobsMovie)).map crewProj))])) ∧
    ((cexCast30.take 20).map movieCastProj).length = 20 ∧
    [cexDirector, cexGaffer].filter (jobIsKey keyJobsMovie) = [cexDirector] :=
  ⟨credits_cast_truncated_crew_filtered.1 cexCreditsFetch 603 (.num 603)
      cexCast30 [cexDirector, cexGaffer] (fun _ => rfl) (by decide) (by decide),
   by decide, rfl⟩

/-- The keys of an object value, in order (used to state which fields a
projected trending entry carries). -/
def objKeys : Json → List String
  | .obj fs => fs.map Prod.fst
  | _ => []

/-- C7: every trending result item is reshaped on its `media_type`
discriminator — `"movie"` entries carry title/release_date/overview, `"tv"`
entries carry name/first_air_date/overview, and `"person"` entries as well
as entries with any unrecognized discriminator carry
name/known_for_department — and the envelope echoes the validated
`media_type` and `time_window` along with the upstream `page`,
`total_results` and `total_pages`, with one projected entry per upstream
result. -/
theorem trending_reshape :
    (∀ item : Json, item.nonNullish = true →
      fmtTrendingItem item = .ok (trendingProj item)) ∧
    (∀ item : Json, item.field "media_type" = .str "movie" →
      objKeys (trendingProj item)
        = ["id", "media_type", "popularity", "vote_average",
           "title", "release_date", "overview"]) ∧
    (∀ item : Json, item.field "media_type" = .str "tv" →
      objKeys (trendingProj item)
        = ["id", "media_type", "popularity", "vote_average",
           "name", "first_air_date", "overview"]) ∧
    (∀ item : Json,
      (item.field "media_type").strictEqStr "movie" = false →
      (item.field "media_type").strictEqStr "tv" = false →
      objKeys (trendingProj item)
        = ["id", "media_type", "popularity", "vote_average",
           "name", "known_for_department"]) ∧
    (∀ (v : TrendingArgs) (fetch : Fetch) (items : List Json) (page tr tp : Json),
      (∀ req, fetch req = .resp true (.obj [("page", page), ("total_results", tr),
        ("total_pages", tp), ("results", .arr items)])) →
      (∀ i ∈ items, i.nonNullish = true) →
      (handleGetTrending v fetch).1 = .ok (Json.stringify (.obj
        [("media_type", .str v.media_type), ("time_window", .str v.time_window),
         ("page", page), ("total_results", tr), ("total_pages", tp),
         ("results", .arr (items.map trendingProj))]))) := by
  refine ⟨fmtTrendingItem_eq, ?_, ?_, ?_, ?_⟩
  · intro item hmt
    simp [trendingProj, hmt, Json.strictEqStr, objKeys]
  · intro item hmt
    simp [trendingProj, hmt, Json.strictEqStr, objKeys]
  · intro item h1 h2
    simp [trendingProj, h1, h2, objKeys]
  · intro v fetch items page tr tp h hitems
    have hmap : mapME fmtTrendingItem items = .ok (items.map trendingProj) :=
      mapME_eq_map _ _ fmtTrendingItem_eq _ hitems
    simp [handleGetTrending, tmdbGet, h, Json.getField, Json.mapArr, List.find?,
      hmap, exBindOk, pure, Except.pure, Except.map]

/-- One movie-shaped trending entry of the C7 scenario. -/
def cexTrendingItem (i : Nat) : Json :=
  .obj [("id", .num i), ("media_type", .str "movie"), ("popularity", .num 7),
    ("vote_average", .num 8), ("title", .str "T"),
    ("release_date", .str "2024-06-01"), ("overview", .str "O")]

/-- The 20 movie-shaped trending entries of the C7 scenario. -/
def cexTrending20 : List Json := (List.range 20).map (fun i => cexTrendingItem i)

/-- The upstream trending oracle of the C7 scenario. -/
def cexTrendingFetch : Fetch := fun _ => .resp true
  (.obj [("page", .num 1), ("total_results", .num 20), ("total_pages", .num 1),
    ("results", .arr cexTrending20)])

/-- Witness for C7: a `media_type="movie", time_window="day", page=1` call
against a 20-result upstream document yields 20 movie-shaped entries and the
echoed media_type and time_window. -/
theorem trending_reshape_witness :
    (handleGetTrending ⟨"movie", "day", 1⟩ cexTrendingFetch).1
      = .ok (Json.stringify (.obj
        [("media_type", .str "movie"), ("time_window", .str "day"),
         ("page", .num 1), ("total_results", .num 20), ("total_pages", .num 1),
         ("results", .arr (cexTrending20.map trendingProj))])) ∧
    (cexTrending20.map trendingProj).length = 20 ∧
    objKeys (trendingProj (cexTrendingItem 0))
      = ["id", "media_type", "popularity", "vote_average",
         "title", "release_date", "overview"] ∧
    parseTrendingArgs (.obj [("media_type", .str "movie"),
        ("time_window", .str "day"), ("page", .num 1)]) = .ok ⟨"movie", "day", 1⟩ :=
  ⟨trending_reshape.2.2.2.2 ⟨"movie", "day", 1⟩ cexTrendingFetch cexTrending20
      (.num 1) (.num 20) (.num 1) (fun _ => rfl) (by decide),
   by decide, rfl, rfl⟩
